import Mathlib

/-!
# Bionic compatibility stubs (`gme-linux-sdk/stubs`)

A shallow embedding of `bionic_compat.c`, `liblog.c` and `opensl_stub.c` and
a verification of the properties their specification states about them.

Conventions of the embedding:

* a byte is a `Nat` below 256; a `char` object is modelled by its byte
  pattern, so `_C|_S|_B` is the byte `0xA8` whatever the signedness of
  `char` (the classification macros only test bits of the entry);
* memory is a flat list of bytes, a pointer is an index into it, and a
  nullable pointer is an `Option`;
* an operation whose behaviour the C standard leaves undefined on the given
  arguments (an access outside the memory, overlapping `memcpy` operands, a
  string without terminator) yields `none`.
-/

namespace BionicCompat

/-! ## `_ctype_`: the character classification table -/

/-- Flag `_U` of `bionic_compat.c` (upper case). -/
def _U : Nat := 0x01
/-- Flag `_L` (lower case). -/
def _L : Nat := 0x02
/-- Flag `_D` (digit). -/
def _D : Nat := 0x04
/-- Flag `_S` (white space). -/
def _S : Nat := 0x08
/-- Flag `_P` (punctuation). -/
def _P : Nat := 0x10
/-- Flag `_C` (control). -/
def _C : Nat := 0x20
/-- Flag `_X` (hexadecimal digit). -/
def _X : Nat := 0x40
/-- Flag `_B` (blank). -/
def _B : Nat := 0x80

/-- The table `const char _ctype_[1 + 256]`, entry by entry as the
initialiser lists it. -/
def _ctype_ : List Nat := [
    0,                                          /- EOF (-1) -/
    _C,_C,_C,_C,_C,_C,_C,_C,                   /- 0x00-0x07 -/
    _C,_C|||_S|||_B,_C|||_S,_C|||_S,_C|||_S,_C|||_S,_C,_C, /- 0x08-0x0F -/
    _C,_C,_C,_C,_C,_C,_C,_C,                   /- 0x10-0x17 -/
    _C,_C,_C,_C,_C,_C,_C,_C,                   /- 0x18-0x1F -/
    _S|||_B,_P,_P,_P,_P,_P,_P,_P,              /- 0x20-0x27 -/
    _P,_P,_P,_P,_P,_P,_P,_P,                   /- 0x28-0x2F -/
    _D|||_X,_D|||_X,_D|||_X,_D|||_X,_D|||_X,_D|||_X,_D|||_X,_D|||_X, /- 0x30-0x37 -/
    _D|||_X,_D|||_X,_P,_P,_P,_P,_P,_P,         /- 0x38-0x3F -/
    _P,_U|||_X,_U|||_X,_U|||_X,_U|||_X,_U|||_X,_U|||_X,_U, /- 0x40-0x47 -/
    _U,_U,_U,_U,_U,_U,_U,_U,                   /- 0x48-0x4F -/
    _U,_U,_U,_U,_U,_U,_U,_U,                   /- 0x50-0x57 -/
    _U,_U,_U,_P,_P,_P,_P,_P,                   /- 0x58-0x5F -/
    _P,_L|||_X,_L|||_X,_L|||_X,_L|||_X,_L|||_X,_L|||_X,_L, /- 0x60-0x67 -/
    _L,_L,_L,_L,_L,_L,_L,_L,                   /- 0x68-0x6F -/
    _L,_L,_L,_L,_L,_L,_L,_L,                   /- 0x70-0x77 -/
    _L,_L,_L,_P,_P,_P,_P,_C,                   /- 0x78-0x7F -/
    /- 0x80-0xFF: all zero (high ASCII / non-ASCII) -/
    0,0,0,0,0,0,0,0,0,0,0,0,0,0,0,0,
    0,0,0,0,0,0,0,0,0,0,0,0,0,0,0,0,
    0,0,0,0,0,0,0,0,0,0,0,0,0,0,0,0,
    0,0,0,0,0,0,0,0,0,0,0,0,0,0,0,0,
    0,0,0,0,0,0,0,0,0,0,0,0,0,0,0,0,
    0,0,0,0,0,0,0,0,0,0,0,0,0,0,0,0,
    0,0,0,0,0,0,0,0,0,0,0,0,0,0,0,0,
    0,0,0,0,0,0,0,0,0,0,0,0,0,0,0,0
]

/-- The access `(_ctype_ + 1)[c]` the classification macros of the source
runtime perform: entry `c + 1` of the table, for `c` from `-1` (end of
input) upwards; outside the array there is nothing to read. -/
def ctypeEntry (c : Int) : Option Nat :=
  if 0 ≤ c + 1 then _ctype_[(c + 1).toNat]? else none

/-- The mask the table stores for the character code `c`: entry `c + 1`. -/
def maskOf (c : Nat) : Option Nat := _ctype_[c + 1]?

/-- The source runtime's "printable" test on a table entry: one of the
punct, upper, lower, digit or blank bits is set (`mask & 0x97`). The macro
itself belongs to the source runtime's `ctype.h`, not to this repository. -/
def isPrintMask (m : Nat) : Bool := m &&& (_P ||| _U ||| _L ||| _D ||| _B) != 0

/-! ## Memory and the host runtime's plain operations

The shims forward to the host C library. Its operations are modelled after
ISO C on a flat byte memory. -/

/-- Memory: a flat sequence of bytes. -/
abbrev Mem := List Nat

/-- The `n` bytes at address `p`, when they all lie inside the memory. -/
def readBytes (m : Mem) (p n : Nat) : Option (List Nat) :=
  if p + n ≤ m.length then some ((m.drop p).take n) else none

/-- Stores `bs` at address `p`, when the bytes all fit inside the memory. -/
def writeBytes (m : Mem) (p : Nat) (bs : List Nat) : Option Mem :=
  if p + bs.length ≤ m.length then
    some (m.take p ++ bs ++ m.drop (p + bs.length))
  else none

/-- The regions `[a, a + n)` and `[b, b + k)` share no byte. -/
def disjointRegions (a n b k : Nat) : Bool :=
  decide (a + n ≤ b) || decide (b + k ≤ a)

/-- The C string at address `s`: the bytes before the first NUL; `none`
when the memory ends before a NUL is found. -/
def cstrAt (m : Mem) (s : Nat) : Option (List Nat) :=
  let tl := m.drop s
  if 0 ∈ tl then some (tl.takeWhile (fun b => b != 0)) else none

/-- The characters `strncpy` and `strncat` take from `src`: those before the
first NUL among the first `n` bytes; `none` when the memory ends before
either a NUL or `n` bytes were seen. -/
def strnAt (m : Mem) (src n : Nat) : Option (List Nat) :=
  let tl := (m.drop src).take n
  let body := tl.takeWhile (fun b => b != 0)
  if body.length < tl.length ∨ tl.length = n then some body else none

/-- The conversion `(unsigned char)c` of an `int` argument. -/
def toUChar (c : Int) : Nat := (c % 256).toNat

/-- Host `memcpy(dst, src, n)`: the new memory and the returned pointer.
Undefined when the operands overlap or leave the memory. -/
def memcpy (m : Mem) (dst src n : Nat) : Option (Mem × Nat) :=
  if disjointRegions dst n src n then
    match readBytes m src n with
    | some bs =>
      match writeBytes m dst bs with
      | some m' => some (m', dst)
      | none => none
    | none => none
  else none

/-- Host `memmove(dst, src, n)`: like `memcpy`, overlap allowed. -/
def memmove (m : Mem) (dst src n : Nat) : Option (Mem × Nat) :=
  match readBytes m src n with
  | some bs =>
    match writeBytes m dst bs with
    | some m' => some (m', dst)
    | none => none
  | none => none

/-- Host `memset(dst, c, n)`. -/
def memset (m : Mem) (dst : Nat) (c : Int) (n : Nat) : Option (Mem × Nat) :=
  match writeBytes m dst (List.replicate n (toUChar c)) with
  | some m' => some (m', dst)
  | none => none

/-- Host `strlen(s)`. -/
def strlen (m : Mem) (s : Nat) : Option Nat :=
  (cstrAt m s).map List.length

/-- Host `strchr(s, c)`: a pointer to the first occurrence of `(char)c` in
the string, its terminator included, or the null pointer (inner `none`). -/
def strchr (m : Mem) (s : Nat) (c : Int) : Option (Option Nat) :=
  match cstrAt m s with
  | some str =>
    match (str ++ [0]).indexOf? (toUChar c) with
    | some i => some (some (s + i))
    | none => some none
  | none => none

/-- Host `strrchr(s, c)`: as `strchr`, for the last occurrence. -/
def strrchr (m : Mem) (s : Nat) (c : Int) : Option (Option Nat) :=
  match cstrAt m s with
  | some str =>
    match (str ++ [0]).reverse.indexOf? (toUChar c) with
    | some i => some (some (s + (str.length - i)))
    | none => some none
  | none => none

/-- Host `strncpy(dst, src, n)`: the characters of `src` (at most `n`),
padded with NULs to `n` bytes. -/
def strncpy (m : Mem) (dst src n : Nat) : Option (Mem × Nat) :=
  match strnAt m src n with
  | some body =>
    if disjointRegions dst n src (min n (body.length + 1)) then
      match writeBytes m dst (body ++ List.replicate (n - body.length) 0) with
      | some m' => some (m', dst)
      | none => none
    else none
  | none => none

/-- Host `strncat(dst, src, n)`: at most `n` characters of `src` and then a
NUL, stored from the terminator of the string at `dst` on. -/
def strncat (m : Mem) (dst src n : Nat) : Option (Mem × Nat) :=
  match cstrAt m dst, strnAt m src n with
  | some d, some body =>
    if disjointRegions dst (d.length + body.length + 1) src
        (min n (body.length + 1)) then
      match writeBytes m (dst + d.length) (body ++ [0]) with
      | some m' => some (m', dst)
      | none => none
    else none
  | _, _ => none

/-- What the host's `read` depends on besides memory: for each open
descriptor, the bytes it has yet to deliver. -/
abbrev Files := List (Int × List Nat)

/-- Host `read(fd, buf, count)`: `-1` on a descriptor that is not open,
otherwise the number of bytes delivered (at most `count`), stored at `buf`
and consumed from the descriptor. The buffer has to hold `count` bytes. -/
def read (fs : Files) (m : Mem) (fd : Int) (buf count : Nat) :
    Option (Int × Mem × Files) :=
  match fs.lookup fd with
  | none => some (-1, m, fs)
  | some pending =>
    if buf + count ≤ m.length then
      match writeBytes m buf (pending.take count) with
      | some m' =>
        some (((pending.take count).length : Int), m',
          (fd, pending.drop count) :: fs.filter (fun e => e.1 != fd))
      | none => none
    else none

/-! ## Formatted output of the host runtime -/

/-- An argument of a captured argument list (`va_list`): an integer, a
string given by its contents, or a value of any other type (a `double`, a
pointer, ...) given by the bytes of its object representation. -/
inductive Arg where
  | int (v : Int)
  | str (s : List Nat)
  | raw (repr : List Nat)
  deriving DecidableEq, Repr

/-- Decimal digits of a natural number, as character codes. -/
def decimalNat (n : Nat) : List Nat := (Nat.toDigits 10 n).map Char.toNat

/-- The text `%d` produces for an `int`. -/
def decimal (v : Int) : List Nat :=
  if v < 0 then 45 :: decimalNat v.natAbs else decimalNat v.toNat

/-- Expansion of a format string over an argument list, for the directives
`%d`, `%i`, `%s`, `%c` and `%%`. Any other directive, a lone `%` at the end,
a missing argument or one of the wrong kind is outside the model (`none`);
arguments left over are ignored, as in C. -/
def vformat : List Nat → List Arg → Option (List Nat)
  | [], _ => some []
  | 37 :: 37 :: rest, ap => (vformat rest ap).map (fun out => 37 :: out)
  | 37 :: 100 :: rest, Arg.int v :: ap =>
    (vformat rest ap).map (fun out => decimal v ++ out)
  | 37 :: 105 :: rest, Arg.int v :: ap =>
    (vformat rest ap).map (fun out => decimal v ++ out)
  | 37 :: 115 :: rest, Arg.str s :: ap =>
    (vformat rest ap).map (fun out => s ++ out)
  | 37 :: 99 :: rest, Arg.int v :: ap =>
    (vformat rest ap).map (fun out => toUChar v :: out)
  | 37 :: _, _ => none
  | b :: rest, ap => (vformat rest ap).map (fun out => b :: out)

/-- Expansion of a caller-supplied format string by the host runtime. The
calls `vformat` covers expand as there. For every other call (flags, field
width, precision, length modifiers, `%u`, `%x`, `%p`, `%f`, ...) the
expansion is the host's, `ext fmt ap`, which is `none` where the call has no
defined behaviour. -/
def hostFormat (ext : List Nat → List Arg → Option (List Nat))
    (fmt : List Nat) (ap : List Arg) : Option (List Nat) :=
  match vformat fmt ap with
  | some text => some text
  | none => ext fmt ap

/-- Host `vsnprintf(dst, size, fmt, ap)`: stores at most `size - 1`
characters of the expansion and a NUL (nothing when `size` is 0) and
returns the length of the whole expansion. -/
def vsnprintf (m : Mem) (dst size : Nat) (fmt : List Nat) (ap : List Arg) :
    Option (Mem × Int) :=
  match vformat fmt ap with
  | some out =>
    if size = 0 then some (m, (out.length : Int))
    else
      match writeBytes m dst (out.take (size - 1) ++ [0]) with
      | some m' => some (m', (out.length : Int))
      | none => none
  | none => none

/-- Host `vsprintf(dst, fmt, ap)`: stores the expansion and a NUL and
returns the length of the expansion. -/
def vsprintf (m : Mem) (dst : Nat) (fmt : List Nat) (ap : List Arg) :
    Option (Mem × Int) :=
  match vformat fmt ap with
  | some out =>
    match writeBytes m dst (out ++ [0]) with
    | some m' => some (m', (out.length : Int))
    | none => none
  | none => none

/-! ## The fortified entry points of `bionic_compat.c` -/

/-- Shim `char* __strncpy_chk2(dst, src, n, dst_len, src_len)`. -/
def __strncpy_chk2 (m : Mem) (dst src n dst_len src_len : Nat) :
    Option (Mem × Nat) :=
  let _ := dst_len
  let _ := src_len
  strncpy m dst src n

/-- Shim `ssize_t __read_chk(fd, buf, count, buf_size)`. -/
def __read_chk (fs : Files) (m : Mem) (fd : Int) (buf count buf_size : Nat) :
    Option (Int × Mem × Files) :=
  let _ := buf_size
  read fs m fd buf count

/-- Shim `char* __strchr_chk(s, c, s_len)`. -/
def __strchr_chk (m : Mem) (s : Nat) (c : Int) (s_len : Nat) :
    Option (Option Nat) :=
  let _ := s_len
  strchr m s c

/-- Shim `char* __strrchr_chk(s, c, s_len)`. -/
def __strrchr_chk (m : Mem) (s : Nat) (c : Int) (s_len : Nat) :
    Option (Option Nat) :=
  let _ := s_len
  strrchr m s c

/-- Shim `size_t __strlen_chk(s, s_len)`. -/
def __strlen_chk (m : Mem) (s s_len : Nat) : Option Nat :=
  let _ := s_len
  strlen m s

/-- Shim `char* __strncat_chk(dst, src, n, dst_buf_size)`. -/
def __strncat_chk (m : Mem) (dst src n dst_buf_size : Nat) :
    Option (Mem × Nat) :=
  let _ := dst_buf_size
  strncat m dst src n

/-- Shim `void* __memcpy_chk(dst, src, n, dst_len)`. -/
def __memcpy_chk (m : Mem) (dst src n dst_len : Nat) : Option (Mem × Nat) :=
  let _ := dst_len
  memcpy m dst src n

/-- Shim `void* __memmove_chk(dst, src, n, dst_len)`. -/
def __memmove_chk (m : Mem) (dst src n dst_len : Nat) : Option (Mem × Nat) :=
  let _ := dst_len
  memmove m dst src n

/-- Shim `void* __memset_chk(dst, c, n, dst_len)`. -/
def __memset_chk (m : Mem) (dst : Nat) (c : Int) (n dst_len : Nat) :
    Option (Mem × Nat) :=
  let _ := dst_len
  memset m dst c n

/-- Shim `int __vsnprintf_chk(dst, size, flags, dst_len, fmt, ap)`. -/
def __vsnprintf_chk (m : Mem) (dst size : Nat) (flags : Int) (dst_len : Nat)
    (fmt : List Nat) (ap : List Arg) : Option (Mem × Int) :=
  let _ := flags
  let _ := dst_len
  vsnprintf m dst size fmt ap

/-- Shim `int __vsprintf_chk(dst, flags, dst_len, fmt, ap)`. -/
def __vsprintf_chk (m : Mem) (dst : Nat) (flags : Int) (dst_len : Nat)
    (fmt : List Nat) (ap : List Arg) : Option (Mem × Int) :=
  let _ := flags
  let _ := dst_len
  vsprintf m dst fmt ap

/-! ## Android system property stubs -/

/-- Stub `int __system_property_get(const char* name, char* value)`:
`if (value) value[0] = 0; return 0;`. The result is the new memory and the
returned `int`; a non-null `value` outside the memory cannot be stored
through. -/
def __system_property_get (m : Mem) (name : Option Nat) (value : Option Nat) :
    Option (Mem × Int) :=
  let _ := name
  match value with
  | some p => if p < m.length then some (m.set p 0, 0) else none
  | none => some (m, 0)

/-- Stub `const struct prop_info* __system_property_find(const char* name)`:
the null descriptor. -/
def __system_property_find (name : Option Nat) : Option Nat :=
  let _ := name
  none

/-- Stub `int __system_property_set(const char* key, const char* value)`. -/
def __system_property_set (key value : Option Nat) : Int :=
  let _ := key
  let _ := value
  0

/-- A caller's callback `void (*)(void* cookie, const char* name,
const char* value, unsigned serial)` acting on a caller state `σ`; the two
strings are given by their contents. -/
abbrev PropCallback (σ : Type) := σ → Option Nat → List Nat → List Nat → Nat → σ

/-- Stub `void __system_property_read_callback(pi, callback, cookie)`:
`if (callback) callback(cookie, "", "", 0);`. -/
def __system_property_read_callback {σ : Type} (st : σ) (pi : Option Nat)
    (callback : Option (PropCallback σ)) (cookie : Option Nat) : σ :=
  let _ := pi
  match callback with
  | some cb => cb st cookie [] [] 0
  | none => st

/-- One call into the property stubs, with its arguments. -/
inductive PropCall where
  | get (name value : Option Nat)
  | find (name : Option Nat)
  | set (key value : Option Nat)
  | readCallback (pi : Option Nat) (callback : Option (PropCallback Mem))
      (cookie : Option Nat)

/-- The memory after one call into the property stubs. -/
def propStep (m : Mem) : PropCall → Option Mem
  | .get name value => (__system_property_get m name value).map Prod.fst
  | .find name =>
    let _ := __system_property_find name
    some m
  | .set key value =>
    let _ := __system_property_set key value
    some m
  | .readCallback pi callback cookie =>
    some (__system_property_read_callback m pi callback cookie)

/-- The memory after a sequence of calls into the property stubs. -/
def propRun (m : Mem) : List PropCall → Option Mem
  | [] => some m
  | c :: cs =>
    match propStep m c with
    | some m' => propRun m' cs
    | none => none

/-- A caller's callback that records each invocation, arguments included, at
the end of a log. -/
def recordingCallback :
    PropCallback (List (Option Nat × List Nat × List Nat × Nat)) :=
  fun log cookie name value serial => log ++ [(cookie, name, value, serial)]

/-! ## The host's diagnostic stream -/

/-- The character codes of a string literal of the source. -/
def bytes (s : String) : List Nat := s.toList.map Char.toNat

/-- An output stream of the host (`stderr`, unbuffered): the bytes delivered
so far, and whether the underlying write fails. -/
structure Stream where
  out : List Nat
  broken : Bool
  deriving DecidableEq, Repr

/-- The stream after the host tried to write `text` to it: extended by
`text`, or as before when the underlying write fails. -/
def written (s : Stream) (text : List Nat) : Stream :=
  if s.broken then s else { s with out := s.out ++ text }

/-- What the host's formatted output does with an expansion. An empty
expansion leaves nothing to write: the stream is not touched and the result
is 0, whatever the state of the stream. Otherwise the text is appended and
its length returned, or, when the underlying write fails, nothing is
delivered and the result is negative (`-1`). -/
def deliver (s : Stream) (text : List Nat) : Stream × Int :=
  if text = [] then (s, 0)
  else if s.broken then (s, -1)
  else ({ s with out := s.out ++ text }, (text.length : Int))

/-- Host `vfprintf(stream, fmt, ap)` on a format within `vformat`. -/
def vfprintf (s : Stream) (fmt : List Nat) (ap : List Arg) :
    Option (Stream × Int) :=
  match vformat fmt ap with
  | some text => some (deliver s text)
  | none => none

/-- Host `vfprintf(stream, fmt, ap)` on a caller-supplied format, expanded
by `hostFormat ext`. -/
def vfprintfHost (ext : List Nat → List Arg → Option (List Nat))
    (s : Stream) (fmt : List Nat) (ap : List Arg) : Option (Stream × Int) :=
  match hostFormat ext fmt ap with
  | some text => some (deliver s text)
  | none => none

/-- Host `fprintf(stream, fmt, ...)`. -/
def fprintf (s : Stream) (fmt : List Nat) (args : List Arg) :
    Option (Stream × Int) :=
  vfprintf s fmt args

/-- A host formatter that defines nothing beyond `vformat`. -/
def plainHost : List Nat → List Arg → Option (List Nat) :=
  fun _ _ => none

/-- A text right-justified in a field of `w` columns, as a field width
does it. -/
def padLeft (w : Nat) (t : List Nat) : List Nat :=
  List.replicate (w - t.length) 32 ++ t

/-- A host formatter that defines, beyond `vformat`, the directive `%5d`
standing alone: the decimal text of an `int` in a field of five columns. -/
def widthHost : List Nat → List Arg → Option (List Nat)
  | [37, 53, 100], Arg.int v :: _ => some (padLeft 5 (decimal v))
  | _, _ => none

/-- Hook `void android_set_abort_message(const char* msg)` of
`bionic_compat.c`; the result of `fprintf` is dropped. -/
def android_set_abort_message (stderr : Stream) (msg : Option (List Nat)) :
    Option Stream :=
  match msg with
  | some text =>
    match fprintf stderr (bytes "[bionic_compat] abort message: %s\n")
        [Arg.str text] with
    | some (s, _) => some s
    | none => none
  | none => some stderr

/-! ## `__sF`: the mirror of the standard streams -/

/-- One line of `__init_sF`:
`if (stream) memcpy(&__sF[i], stream, sizeof(FILE));`, with `__sF` at
address `sF` and a host control block of `sizeofFILE` bytes. -/
def copyStream (m : Mem) (sF sizeofFILE i : Nat) (stream : Option Nat) :
    Option Mem :=
  match stream with
  | some p =>
    match memcpy m (sF + i * sizeofFILE) p sizeofFILE with
    | some (m', _) => some m'
    | none => none
  | none => some m

/-- Constructor `void __init_sF(void)`: the three copies, for the host's
`stdin`, `stdout` and `stderr` (null pointers are `none`). -/
def __init_sF (m : Mem) (sF sizeofFILE : Nat)
    (stdin stdout stderr : Option Nat) : Option Mem :=
  match copyStream m sF sizeofFILE 0 stdin with
  | some m1 =>
    match copyStream m1 sF sizeofFILE 1 stdout with
    | some m2 => copyStream m2 sF sizeofFILE 2 stderr
    | none => none
  | none => none

/-! ## Descriptor sets

The host's `<sys/select.h>`: an `fd_set` is the array `fds_bits` of
`FD_SETSIZE / __NFDBITS` words of `__NFDBITS` bits. -/

/-- Host constant `FD_SETSIZE`. -/
def FD_SETSIZE : Nat := 1024
/-- Host constant `__NFDBITS`, the bits of one word of an `fd_set`. -/
def __NFDBITS : Nat := 64
/-- Host macro `__FD_ELT(d)`: the word that holds descriptor `d`. -/
def __FD_ELT (d : Nat) : Nat := d / __NFDBITS
/-- Host macro `__FD_MASK(d)`: the bit of descriptor `d` in its word. -/
def __FD_MASK (d : Nat) : Nat := 1 <<< (d % __NFDBITS)

/-- The contents of a host `fd_set`: its words. -/
abbrev fd_set := List Nat

/-- Host macro `FD_SET(fd, set)`: `fds_bits[__FD_ELT(fd)] |= __FD_MASK(fd)`;
undefined for a descriptor outside `0..FD_SETSIZE-1`. -/
def FD_SET (fd : Int) (set : fd_set) : Option fd_set :=
  if 0 ≤ fd ∧ fd < (FD_SETSIZE : Int) then
    match set[__FD_ELT fd.toNat]? with
    | some w => some (set.set (__FD_ELT fd.toNat) (w ||| __FD_MASK fd.toNat))
    | none => none
  else none

/-- Host macro `FD_ISSET(fd, set)`:
`(fds_bits[__FD_ELT(fd)] & __FD_MASK(fd)) != 0`, as an `int`. -/
def FD_ISSET (fd : Int) (set : fd_set) : Option Int :=
  if 0 ≤ fd ∧ fd < (FD_SETSIZE : Int) then
    match set[__FD_ELT fd.toNat]? with
    | some w => some (if w &&& __FD_MASK fd.toNat ≠ 0 then 1 else 0)
    | none => none
  else none

/-- Shim `int __FD_ISSET_chk(int fd, fd_set* set)`. -/
def __FD_ISSET_chk (fd : Int) (set : fd_set) : Option Int :=
  FD_ISSET fd set

/-- Shim `void __FD_SET_chk(int fd, fd_set* set)`: the set after the call. -/
def __FD_SET_chk (fd : Int) (set : fd_set) : Option fd_set :=
  FD_SET fd set

end BionicCompat

/-! # The logging bridge (`liblog.c`) -/

namespace LibLog

open BionicCompat

/-- Entry point `int __android_log_write(int prio, const char* tag,
const char* text)`. -/
def __android_log_write (stderr : Stream) (prio : Int)
    (tag text : Option (List Nat)) : Option (Stream × Int) :=
  fprintf stderr (bytes "[%d/%s] %s\n")
    [Arg.int prio,
     Arg.str (match tag with | some t => t | none => bytes "GME"),
     Arg.str (match text with | some t => t | none => bytes "")]

/-- Entry point `int __android_log_print(int prio, const char* tag,
const char* fmt, ...)`; `args` are the variadic arguments and `ext` the
host's expansion of the formats outside `vformat`. -/
def __android_log_print (ext : List Nat → List Arg → Option (List Nat))
    (stderr : Stream) (prio : Int)
    (tag : Option (List Nat)) (fmt : List Nat) (args : List Arg) :
    Option (Stream × Int) :=
  match fprintf stderr (bytes "[%d/%s] ")
      [Arg.int prio,
       Arg.str (match tag with | some t => t | none => bytes "GME")] with
  | some (s1, _) =>
    let ap := args
    match vfprintfHost ext s1 fmt ap with
    | some (s2, ret) =>
      match fprintf s2 (bytes "\n") [] with
      | some (s3, _) => some (s3, ret)
      | none => none
    | none => none
  | none => none

/-- Entry point `int __android_log_vprint(int prio, const char* tag,
const char* fmt, va_list ap)`; `ext` is the host's expansion of the formats
outside `vformat`. -/
def __android_log_vprint (ext : List Nat → List Arg → Option (List Nat))
    (stderr : Stream) (prio : Int)
    (tag : Option (List Nat)) (fmt : List Nat) (ap : List Arg) :
    Option (Stream × Int) :=
  match fprintf stderr (bytes "[%d/%s] ")
      [Arg.int prio,
       Arg.str (match tag with | some t => t | none => bytes "GME")] with
  | some (s1, _) =>
    match vfprintfHost ext s1 fmt ap with
    | some (s2, ret) =>
      match fprintf s2 (bytes "\n") [] with
      | some (s3, _) => some (s3, ret)
      | none => none
    | none => none
  | none => none

end LibLog

/-! # The OpenSL ES stub (`opensl_stub.c`) -/

namespace OpenSLStub

open BionicCompat

/-- Result code `SL_RESULT_SUCCESS` (`SLresult` is `uint32_t`). -/
def SL_RESULT_SUCCESS : Nat := 0x00000000
/-- Result code `SL_RESULT_FEATURE_UNSUPPORTED`. -/
def SL_RESULT_FEATURE_UNSUPPORTED : Nat := 0x0000000C
/-- Result code `SL_RESULT_INTERNAL_ERROR`. -/
def SL_RESULT_INTERNAL_ERROR : Nat := 0x00000006

/-- Addresses: the null pointer, the two static objects of the stub, the
caller's cells of type `void*` and of type `SLuint32`, and any other
address. -/
inductive Ptr where
  | null
  | g_stub_vtable
  | g_stub_object
  | ptrCell (i : Nat)
  | wordCell (i : Nat)
  | other (a : Nat)
  deriving DecidableEq, Repr

/-- The five static functions a slot of the dispatch table can point to. -/
inductive FnPtr where
  | stub_Realize
  | stub_Resume
  | stub_GetState
  | stub_GetInterface
  | stub_Destroy
  deriving DecidableEq, Repr

/-- The struct `SLObjectItf_vtable`: five function slots, in this order. -/
structure SLObjectItf_vtable where
  Realize : FnPtr
  Resume : FnPtr
  GetState : FnPtr
  GetInterface : FnPtr
  Destroy : FnPtr
  deriving DecidableEq, Repr

/-- The state the stub and its caller act on: the diagnostic stream, the two
(non-const) statics `g_stub_vtable` and `g_stub_object`, and the caller's
cells. -/
structure SLState where
  stderr : Stream
  g_stub_vtable : SLObjectItf_vtable
  g_stub_object : Ptr
  ptrCells : List Ptr
  wordCells : List Nat
  deriving DecidableEq, Repr

/-- The initialiser of the static `g_stub_vtable`: `{ stub_Realize,
stub_Resume, stub_GetState, stub_GetInterface, stub_Destroy }`. -/
def g_stub_vtable_init : SLObjectItf_vtable :=
  { Realize := FnPtr.stub_Realize
    Resume := FnPtr.stub_Resume
    GetState := FnPtr.stub_GetState
    GetInterface := FnPtr.stub_GetInterface
    Destroy := FnPtr.stub_Destroy }

/-- The state once the library is loaded: the statics hold their
initialisers, `g_stub_vtable` the five stubs and
`g_stub_object = &g_stub_vtable`. -/
def loaded (stderr : Stream) (ptrCells : List Ptr) (wordCells : List Nat) :
    SLState :=
  { stderr := stderr
    g_stub_vtable := g_stub_vtable_init
    g_stub_object := Ptr.g_stub_vtable
    ptrCells := ptrCells
    wordCells := wordCells }

/-- The two statics hold the values their initialisers gave them. -/
def staticsIntact (st : SLState) : Prop :=
  st.g_stub_vtable = g_stub_vtable_init ∧ st.g_stub_object = Ptr.g_stub_vtable

instance (st : SLState) : Decidable (staticsIntact st) := by
  unfold staticsIntact
  infer_instance

/-- The store `*p = v` through a `void**`: defined on a caller's `void*` cell
only (the statics have other types, which such an lvalue must not access). -/
def storePtr (st : SLState) (p : Ptr) (v : Ptr) : Option SLState :=
  match p with
  | Ptr.ptrCell i =>
    if i < st.ptrCells.length then
      some { st with ptrCells := st.ptrCells.set i v }
    else none
  | _ => none

/-- The store `*p = v` through a `SLuint32*`: defined on a caller's
`SLuint32` cell only. -/
def storeWord (st : SLState) (p : Ptr) (v : Nat) : Option SLState :=
  match p with
  | Ptr.wordCell i =>
    if i < st.wordCells.length then
      some { st with wordCells := st.wordCells.set i v }
    else none
  | _ => none

/-- Static `SLresult stub_Realize(void* self, SLboolean async)`. -/
def stub_Realize (st : SLState) (self : Ptr) (async : Nat) :
    Option (SLState × Nat) :=
  let _ := self
  let _ := async
  match fprintf st.stderr
      (bytes "[OpenSL stub] Realize called - returning unsupported\n") [] with
  | some (s, _) => some ({ st with stderr := s }, SL_RESULT_FEATURE_UNSUPPORTED)
  | none => none

/-- Static `SLresult stub_Resume(void* self, SLboolean async)`. -/
def stub_Resume (st : SLState) (self : Ptr) (async : Nat) :
    Option (SLState × Nat) :=
  let _ := self
  let _ := async
  some (st, SL_RESULT_FEATURE_UNSUPPORTED)

/-- Static `SLresult stub_GetState(void* self, SLuint32* pState)`:
`if (pState) *pState = 0;`. -/
def stub_GetState (st : SLState) (self : Ptr) (pState : Ptr) :
    Option (SLState × Nat) :=
  let _ := self
  if pState ≠ Ptr.null then
    match storeWord st pState 0 with
    | some st' => some (st', SL_RESULT_FEATURE_UNSUPPORTED)
    | none => none
  else some (st, SL_RESULT_FEATURE_UNSUPPORTED)

/-- Static `SLresult stub_GetInterface(void* self, SLInterfaceID iid,
void* pInterface)`. -/
def stub_GetInterface (st : SLState) (self : Ptr) (iid : Ptr)
    (pInterface : Ptr) : Option (SLState × Nat) :=
  let _ := self
  let _ := iid
  let _ := pInterface
  match fprintf st.stderr
      (bytes "[OpenSL stub] GetInterface called - returning unsupported\n")
      [] with
  | some (s, _) => some ({ st with stderr := s }, SL_RESULT_FEATURE_UNSUPPORTED)
  | none => none

/-- Static `void stub_Destroy(void* self)`. -/
def stub_Destroy (st : SLState) (self : Ptr) : Option SLState :=
  let _ := self
  some st

/-- Entry point `SLresult slCreateEngine(void** pEngine, SLuint32 numOptions,
const void* pEngineOptions, SLuint32 numInterfaces,
const SLInterfaceID* pInterfaceIds, const SLboolean* pInterfaceRequired)`. -/
def slCreateEngine (st : SLState) (pEngine : Ptr) (numOptions : Nat)
    (pEngineOptions : Ptr) (numInterfaces : Nat) (pInterfaceIds : Ptr)
    (pInterfaceRequired : Ptr) : Option (SLState × Nat) :=
  let _ := numOptions
  let _ := pEngineOptions
  let _ := numInterfaces
  let _ := pInterfaceIds
  let _ := pInterfaceRequired
  match fprintf st.stderr
      (bytes "[OpenSL stub] slCreateEngine called - returning stub object\n")
      [] with
  | some (s, _) =>
    if pEngine ≠ Ptr.null then
      match storePtr { st with stderr := s } pEngine Ptr.g_stub_object with
      | some st' => some (st', SL_RESULT_SUCCESS)
      | none => none
    else some ({ st with stderr := s }, SL_RESULT_SUCCESS)
  | none => none

/-! ### The caller's side: dispatch through a handle -/

/-- The load `*p` of a pointer-valued object. -/
def loadPtr (st : SLState) (p : Ptr) : Option Ptr :=
  match p with
  | Ptr.g_stub_object => some st.g_stub_object
  | Ptr.ptrCell i => st.ptrCells[i]?
  | _ => none

/-- The dispatch table stored at an address. -/
def vtableAt (st : SLState) (p : Ptr) : Option SLObjectItf_vtable :=
  match p with
  | Ptr.g_stub_vtable => some st.g_stub_vtable
  | _ => none

/-- The dispatch table `*h` reached through an object handle `h`. -/
def tableOf (st : SLState) (h : Ptr) : Option SLObjectItf_vtable :=
  match loadPtr st h with
  | some obj => vtableAt st obj
  | none => none

/-- A call through a function pointer of type
`SLresult (*)(void*, SLboolean)`. -/
def callBoolFn (st : SLState) (f : FnPtr) (self : Ptr) (async : Nat) :
    Option (SLState × Nat) :=
  match f with
  | FnPtr.stub_Realize => stub_Realize st self async
  | FnPtr.stub_Resume => stub_Resume st self async
  | _ => none

/-- The caller's `(*h)->Realize(self, async)`. -/
def callRealize (st : SLState) (h self : Ptr) (async : Nat) :
    Option (SLState × Nat) :=
  match tableOf st h with
  | some vt => callBoolFn st vt.Realize self async
  | none => none

/-- The caller's `(*h)->Resume(self, async)`. -/
def callResume (st : SLState) (h self : Ptr) (async : Nat) :
    Option (SLState × Nat) :=
  match tableOf st h with
  | some vt => callBoolFn st vt.Resume self async
  | none => none

/-- The caller's `(*h)->GetState(self, pState)`. -/
def callGetState (st : SLState) (h self pState : Ptr) :
    Option (SLState × Nat) :=
  match tableOf st h with
  | some vt =>
    match vt.GetState with
    | FnPtr.stub_GetState => stub_GetState st self pState
    | _ => none
  | none => none

/-- The caller's `(*h)->GetInterface(self, iid, pInterface)`. -/
def callGetInterface (st : SLState) (h self iid pInterface : Ptr) :
    Option (SLState × Nat) :=
  match tableOf st h with
  | some vt =>
    match vt.GetInterface with
    | FnPtr.stub_GetInterface => stub_GetInterface st self iid pInterface
    | _ => none
  | none => none

/-- The caller's `(*h)->Destroy(self)`. -/
def callDestroy (st : SLState) (h self : Ptr) : Option SLState :=
  match tableOf st h with
  | some vt =>
    match vt.Destroy with
    | FnPtr.stub_Destroy => stub_Destroy st self
    | _ => none
  | none => none

/-! ### Runs of calls -/

/-- One call of the caller: the factory, or an operation through a handle. -/
inductive SLCall where
  | createEngine (pEngine : Ptr) (numOptions : Nat) (pEngineOptions : Ptr)
      (numInterfaces : Nat) (pInterfaceIds pInterfaceRequired : Ptr)
  | realize (h self : Ptr) (async : Nat)
  | resume (h self : Ptr) (async : Nat)
  | getState (h self pState : Ptr)
  | getInterface (h self iid pInterface : Ptr)
  | destroy (h self : Ptr)
  deriving DecidableEq, Repr

/-- The state after one call. -/
def slStep (st : SLState) (c : SLCall) : Option SLState :=
  match c with
  | SLCall.createEngine pEngine numOptions pEngineOptions numInterfaces
      pInterfaceIds pInterfaceRequired =>
    (slCreateEngine st pEngine numOptions pEngineOptions numInterfaces
      pInterfaceIds pInterfaceRequired).map Prod.fst
  | SLCall.realize h self async => (callRealize st h self async).map Prod.fst
  | SLCall.resume h self async => (callResume st h self async).map Prod.fst
  | SLCall.getState h self pState =>
    (callGetState st h self pState).map Prod.fst
  | SLCall.getInterface h self iid pInterface =>
    (callGetInterface st h self iid pInterface).map Prod.fst
  | SLCall.destroy h self => callDestroy st h self

/-- The state after a sequence of calls. -/
def slRun (st : SLState) : List SLCall → Option SLState
  | [] => some st
  | c :: cs =>
    match slStep st c with
    | some st' => slRun st' cs
    | none => none

end OpenSLStub

/-! ## The classification table: theorems -/

namespace BionicCompat

/-- A table entry that exists is the one `Option.getD` extracts. -/
theorem maskOf_eq_some_getD {c : Nat} (h : (maskOf c).isSome = true) :
    maskOf c = some ((maskOf c).getD 0) := by
  cases hm : maskOf c with
  | none => simp [hm] at h
  | some m => simp

set_option maxRecDepth 100000 in
/-- Entry by entry: the upper, lower, digit, space, control and punct bits
of every code. -/
theorem ctype_scan_classes : ∀ c, c < 256 → (maskOf c).isSome = true ∧
    (((maskOf c).getD 0) &&& _U ≠ 0 ↔ 0x41 ≤ c ∧ c ≤ 0x5A) ∧
    (((maskOf c).getD 0) &&& _L ≠ 0 ↔ 0x61 ≤ c ∧ c ≤ 0x7A) ∧
    (((maskOf c).getD 0) &&& _D ≠ 0 ↔ 0x30 ≤ c ∧ c ≤ 0x39) ∧
    (((maskOf c).getD 0) &&& _S ≠ 0 ↔ (0x09 ≤ c ∧ c ≤ 0x0D) ∨ c = 0x20) ∧
    (((maskOf c).getD 0) &&& _C ≠ 0 ↔ c ≤ 0x1F ∨ c = 0x7F) ∧
    (((maskOf c).getD 0) &&& _P ≠ 0 ↔
      (0x21 ≤ c ∧ c ≤ 0x7E) ∧ ¬ (0x41 ≤ c ∧ c ≤ 0x5A) ∧
        ¬ (0x61 ≤ c ∧ c ≤ 0x7A) ∧ ¬ (0x30 ≤ c ∧ c ≤ 0x39)) := by
  decide

set_option maxRecDepth 100000 in
/-- Entry by entry: the hex bit of every code. -/
theorem ctype_scan_hex : ∀ c, c < 256 → (maskOf c).isSome = true ∧
    (((maskOf c).getD 0) &&& _X ≠ 0 ↔
      (0x30 ≤ c ∧ c ≤ 0x39) ∨ (0x41 ≤ c ∧ c ≤ 0x46) ∨ (0x61 ≤ c ∧ c ≤ 0x66)) ∧
    (((maskOf c).getD 0) &&& _X ≠ 0 →
      ((maskOf c).getD 0) &&& (_U ||| _L ||| _D) ≠ 0) := by
  decide

set_option maxRecDepth 100000 in
/-- Entry by entry: the blank bit of every code. -/
theorem ctype_scan_blank : ∀ c, c < 256 → (maskOf c).isSome = true ∧
    (((maskOf c).getD 0) &&& _B ≠ 0 ↔ c = 0x20 ∨ c = 0x09) ∧
    (((maskOf c).getD 0) &&& _B ≠ 0 → ((maskOf c).getD 0) &&& _S ≠ 0) := by
  decide

set_option maxRecDepth 100000 in
/-- Entry by entry: the upper half of the code range. -/
theorem ctype_scan_high : ∀ c, c < 256 → 0x80 ≤ c → maskOf c = some 0 := by
  decide

set_option maxRecDepth 100000 in
/-- Entry by entry: apart from the horizontal tab, the printable test of
the source runtime accepts exactly the codes 0x20..0x7E. -/
theorem ctype_scan_printable_except_tab : ∀ c, c < 256 → c ≠ 0x09 →
    (maskOf c).isSome = true ∧
      (isPrintMask ((maskOf c).getD 0) = true ↔ 0x20 ≤ c ∧ c ≤ 0x7E) := by
  decide

set_option maxRecDepth 100000 in
/-- Every entry of the table is a byte. -/
theorem ctype_entries_bytes : ∀ i, i < 257 →
    (_ctype_[i]?).isSome = true ∧ (_ctype_[i]?).getD 0 < 256 := by
  decide

/-- C1: for every character code `c` in 0..255 the mask stored at entry
`c + 1` has the upper bit iff `c` is `'A'..'Z'`, the lower bit iff `c` is
`'a'..'z'`, the digit bit iff `c` is `'0'..'9'`, the space bit iff `c` is
0x09..0x0D or 0x20, the control bit iff `c` is 0x00..0x1F or 0x7F, and the
punct bit iff `c` is in 0x21..0x7E and neither a letter nor a digit. -/
theorem ctype_class_bits (c : Nat) (hc : c < 256) :
    ∃ m, maskOf c = some m ∧
      (m &&& 0x01 ≠ 0 ↔ 0x41 ≤ c ∧ c ≤ 0x5A) ∧
      (m &&& 0x02 ≠ 0 ↔ 0x61 ≤ c ∧ c ≤ 0x7A) ∧
      (m &&& 0x04 ≠ 0 ↔ 0x30 ≤ c ∧ c ≤ 0x39) ∧
      (m &&& 0x08 ≠ 0 ↔ (0x09 ≤ c ∧ c ≤ 0x0D) ∨ c = 0x20) ∧
      (m &&& 0x20 ≠ 0 ↔ c ≤ 0x1F ∨ c = 0x7F) ∧
      (m &&& 0x10 ≠ 0 ↔
        (0x21 ≤ c ∧ c ≤ 0x7E) ∧ ¬ (0x41 ≤ c ∧ c ≤ 0x5A) ∧
          ¬ (0x61 ≤ c ∧ c ≤ 0x7A) ∧ ¬ (0x30 ≤ c ∧ c ≤ 0x39)) := by
  obtain ⟨hs, h⟩ := ctype_scan_classes c hc
  exact ⟨_, maskOf_eq_some_getD hs, h⟩

/-- Witness of C1 at the code of `'A'`. -/
theorem ctype_class_bits_witness :
    ∃ m, maskOf 0x41 = some m ∧
      (m &&& 0x01 ≠ 0 ↔ 0x41 ≤ 0x41 ∧ 0x41 ≤ 0x5A) ∧
      (m &&& 0x02 ≠ 0 ↔ 0x61 ≤ 0x41 ∧ 0x41 ≤ 0x7A) ∧
      (m &&& 0x04 ≠ 0 ↔ 0x30 ≤ 0x41 ∧ 0x41 ≤ 0x39) ∧
      (m &&& 0x08 ≠ 0 ↔ (0x09 ≤ 0x41 ∧ 0x41 ≤ 0x0D) ∨ 0x41 = 0x20) ∧
      (m &&& 0x20 ≠ 0 ↔ 0x41 ≤ 0x1F ∨ 0x41 = 0x7F) ∧
      (m &&& 0x10 ≠ 0 ↔
        (0x21 ≤ 0x41 ∧ 0x41 ≤ 0x7E) ∧ ¬ (0x41 ≤ 0x41 ∧ 0x41 ≤ 0x5A) ∧
          ¬ (0x61 ≤ 0x41 ∧ 0x41 ≤ 0x7A) ∧ ¬ (0x30 ≤ 0x41 ∧ 0x41 ≤ 0x39)) :=
  ctype_class_bits 0x41 (by decide)

set_option maxRecDepth 100000 in
/-- C2, at the failing input: the horizontal tab (0x09) is a control
character whose entry `_C|_S|_B` = 0xA8 passes the source runtime's
printable test (`mask & 0x97` is 0x80), although 0x09 lies outside
0x20..0x7E; so the printable test does not single out 0x20..0x7E. -/
theorem ctype_tab_is_printable :
    maskOf 0x09 = some 0xA8 ∧ 0xA8 &&& 0x97 = 0x80 ∧
      isPrintMask 0xA8 = true ∧ 0xA8 &&& _C ≠ 0 ∧ ¬ (0x20 ≤ 0x09) ∧
      ¬ (∀ c, c < 256 → ∃ m, maskOf c = some m ∧
          (m &&& 0x97 ≠ 0 ↔ 0x20 ≤ c ∧ c ≤ 0x7E)) := by
  refine ⟨by decide, by decide, by decide, by decide, by decide, ?_⟩
  intro h
  obtain ⟨m, hm, hiff⟩ := h 0x09 (by decide)
  have h9 : maskOf 0x09 = some 0xA8 := by decide
  rw [h9] at hm
  cases hm
  exact absurd (hiff.mp (by decide)).1 (by decide)

set_option maxRecDepth 100000 in
/-- C3: for every character code `c` in 0..255 the hex bit of its mask is
set iff `c` is a hexadecimal digit character, and a mask with the hex bit
also has the upper, lower or digit bit; the mask of 0x41 `'A'` has both
the upper and the hex bit. -/
theorem ctype_hex_bit (c : Nat) (hc : c < 256) :
    (∃ m, maskOf c = some m ∧
      (m &&& 0x40 ≠ 0 ↔
        (0x30 ≤ c ∧ c ≤ 0x39) ∨ (0x41 ≤ c ∧ c ≤ 0x46) ∨
          (0x61 ≤ c ∧ c ≤ 0x66)) ∧
      (m &&& 0x40 ≠ 0 → m &&& (0x01 ||| 0x02 ||| 0x04) ≠ 0)) ∧
    (∃ a, maskOf 0x41 = some a ∧ a &&& 0x01 ≠ 0 ∧ a &&& 0x40 ≠ 0) := by
  obtain ⟨hs, h⟩ := ctype_scan_hex c hc
  exact ⟨⟨_, maskOf_eq_some_getD hs, h⟩, ⟨0x41, by decide, by decide, by decide⟩⟩

/-- Witness of C3 at the code of `'f'`. -/
theorem ctype_hex_bit_witness :
    (∃ m, maskOf 0x66 = some m ∧
      (m &&& 0x40 ≠ 0 ↔
        (0x30 ≤ 0x66 ∧ 0x66 ≤ 0x39) ∨ (0x41 ≤ 0x66 ∧ 0x66 ≤ 0x46) ∨
          (0x61 ≤ 0x66 ∧ 0x66 ≤ 0x66)) ∧
      (m &&& 0x40 ≠ 0 → m &&& (0x01 ||| 0x02 ||| 0x04) ≠ 0)) ∧
    (∃ a, maskOf 0x41 = some a ∧ a &&& 0x01 ≠ 0 ∧ a &&& 0x40 ≠ 0) :=
  ctype_hex_bit 0x66 (by decide)

set_option maxRecDepth 100000 in
/-- C4: for every character code `c` in 0..255 the blank bit of its mask is
set iff `c` is the space 0x20 or the horizontal tab 0x09, and a mask with
the blank bit also has the space bit; the mask of 0x20 is exactly the space
and blank bits (0x88). -/
theorem ctype_blank_bit (c : Nat) (hc : c < 256) :
    (∃ m, maskOf c = some m ∧
      (m &&& 0x80 ≠ 0 ↔ c = 0x20 ∨ c = 0x09) ∧
      (m &&& 0x80 ≠ 0 → m &&& 0x08 ≠ 0)) ∧
    maskOf 0x20 = some (0x08 ||| 0x80) := by
  obtain ⟨hs, h⟩ := ctype_scan_blank c hc
  exact ⟨⟨_, maskOf_eq_some_getD hs, h⟩, by decide⟩

/-- Witness of C4 at the horizontal tab. -/
theorem ctype_blank_bit_witness :
    (∃ m, maskOf 0x09 = some m ∧
      (m &&& 0x80 ≠ 0 ↔ 0x09 = 0x20 ∨ 0x09 = 0x09) ∧
      (m &&& 0x80 ≠ 0 → m &&& 0x08 ≠ 0)) ∧
    maskOf 0x20 = some (0x08 ||| 0x80) :=
  ctype_blank_bit 0x09 (by decide)

/-- C5: for every character code `c` in 0x80..0xFF the mask stored at entry
`c + 1` is 0. -/
theorem ctype_high_half_zero (c : Nat) (hlo : 0x80 ≤ c) (hhi : c ≤ 0xFF) :
    maskOf c = some 0 :=
  ctype_scan_high c (by omega) hlo

/-- Witness of C5 at code 0xFF. -/
theorem ctype_high_half_zero_witness : maskOf 0xFF = some 0 :=
  ctype_high_half_zero 0xFF (by decide) (by decide)

set_option maxRecDepth 100000 in
/-- C6: the table has exactly 257 entries; entry 0, the end-of-input
sentinel reached with `c = -1`, is 0; entry `k + 1` is the mask of the code
`k` for `k` in 0..255; and the lookup of entry `c + 1` is defined, and a
byte, for every `c` in -1..255 (entry 257 does not exist). -/
theorem ctype_layout (c : Int) (hlo : -1 ≤ c) (hhi : c ≤ 255) :
    _ctype_.length = 257 ∧ _ctype_[0]? = some 0 ∧ ctypeEntry (-1) = some 0 ∧
      _ctype_[257]? = none ∧
      (∃ m, ctypeEntry c = some m ∧ _ctype_[(c + 1).toNat]? = some m ∧
        m < 256) ∧
      (∀ k : Nat, k < 256 →
        ctypeEntry (k : Int) = _ctype_[k + 1]? ∧
          ctypeEntry (k : Int) = maskOf k) := by
  refine ⟨by decide, by decide, by decide, by decide, ?_, ?_⟩
  · have hi : (c + 1).toNat < 257 := by omega
    obtain ⟨hs, hb⟩ := ctype_entries_bytes _ hi
    have he : ctypeEntry c = _ctype_[(c + 1).toNat]? := by
      unfold ctypeEntry
      rw [if_pos (by omega)]
    cases hm : _ctype_[(c + 1).toNat]? with
    | none => rw [hm] at hs; simp at hs
    | some v =>
      rw [hm] at hb
      exact ⟨v, by rw [he, hm], rfl, by simpa using hb⟩
  · intro k _
    have he : ctypeEntry (k : Int) = _ctype_[k + 1]? := by
      unfold ctypeEntry
      rw [if_pos (by omega)]
      congr 1
    exact ⟨he, he⟩

/-- Witness of C6 at the end-of-input code `-1`. -/
theorem ctype_layout_witness :
    _ctype_.length = 257 ∧ _ctype_[0]? = some 0 ∧ ctypeEntry (-1) = some 0 ∧
      _ctype_[257]? = none ∧
      (∃ m, ctypeEntry (-1) = some m ∧ _ctype_[((-1 : Int) + 1).toNat]? = some m ∧
        m < 256) ∧
      (∀ k : Nat, k < 256 →
        ctypeEntry (k : Int) = _ctype_[k + 1]? ∧
          ctypeEntry (k : Int) = maskOf k) :=
  ctype_layout (-1) (by decide) (by decide)

/-! ## The fortified entry points: theorems -/

/-- C7: for each fortified entry point, two calls that agree on all
arguments except the capacity and flags arguments (`dst_len`, `src_len`,
`s_len`, `dst_buf_size`, `buf_size`, `flags`) have the same outcome: the
same returned value and the same resulting memory (and, for `__read_chk`,
the same descriptor state). -/
theorem fortified_capacity_irrelevant (fs : Files) (m : Mem)
    (dst src s buf n size count : Nat) (c fd : Int) (fmt : List Nat)
    (ap : List Arg)
    (dst_len dst_len' src_len src_len' s_len s_len' : Nat)
    (dst_buf_size dst_buf_size' buf_size buf_size' : Nat)
    (flags flags' : Int) :
    __memcpy_chk m dst src n dst_len = __memcpy_chk m dst src n dst_len' ∧
    __memmove_chk m dst src n dst_len = __memmove_chk m dst src n dst_len' ∧
    __memset_chk m dst c n dst_len = __memset_chk m dst c n dst_len' ∧
    __strncpy_chk2 m dst src n dst_len src_len =
      __strncpy_chk2 m dst src n dst_len' src_len' ∧
    __strncat_chk m dst src n dst_buf_size =
      __strncat_chk m dst src n dst_buf_size' ∧
    __strlen_chk m s s_len = __strlen_chk m s s_len' ∧
    __strchr_chk m s c s_len = __strchr_chk m s c s_len' ∧
    __strrchr_chk m s c s_len = __strrchr_chk m s c s_len' ∧
    __read_chk fs m fd buf count buf_size =
      __read_chk fs m fd buf count buf_size' ∧
    __vsnprintf_chk m dst size flags dst_len fmt ap =
      __vsnprintf_chk m dst size flags' dst_len' fmt ap ∧
    __vsprintf_chk m dst flags dst_len fmt ap =
      __vsprintf_chk m dst flags' dst_len' fmt ap :=
  ⟨rfl, rfl, rfl, rfl, rfl, rfl, rfl, rfl, rfl, rfl, rfl⟩

/-- A store that fits yields the memory with the bytes spliced in. -/
theorem writeBytes_eq_some {m : Mem} {p : Nat} {bs : List Nat}
    (h : p + bs.length ≤ m.length) :
    writeBytes m p bs = some (m.take p ++ bs ++ m.drop (p + bs.length)) := by
  unfold writeBytes
  rw [if_pos h]

/-- Splicing bytes into a memory keeps its size. -/
theorem splice_length {m : Mem} {p : Nat} {bs : List Nat}
    (h : p + bs.length ≤ m.length) :
    (m.take p ++ bs ++ m.drop (p + bs.length)).length = m.length := by
  simp only [List.length_append, List.length_take, List.length_drop]
  omega

/-- Inside the spliced region one reads the new bytes. -/
theorem splice_getElem?_inside {m : Mem} {p : Nat} {bs : List Nat}
    (h : p + bs.length ≤ m.length) {i : Nat} (hi : i < bs.length) :
    (m.take p ++ bs ++ m.drop (p + bs.length))[p + i]? = bs[i]? := by
  have hp : (m.take p).length = p := by
    rw [List.length_take]; omega
  rw [List.append_assoc, List.getElem?_append_right (by omega), hp,
    List.getElem?_append_left (by omega)]
  congr 1
  omega

/-- Outside the spliced region the memory is as before. -/
theorem splice_getElem?_outside {m : Mem} {p : Nat} {bs : List Nat}
    (h : p + bs.length ≤ m.length) {j : Nat}
    (hj : j < p ∨ p + bs.length ≤ j) :
    (m.take p ++ bs ++ m.drop (p + bs.length))[j]? = m[j]? := by
  have hp : (m.take p).length = p := by
    rw [List.length_take]; omega
  rcases hj with hj | hj
  · rw [List.append_assoc, List.getElem?_append_left (by omega),
      List.getElem?_take_of_lt hj]
  · rw [List.getElem?_append_right (by simp only [List.length_append, hp]; omega),
      List.getElem?_drop]
    congr 1
    simp only [List.length_append, hp]
    omega

/-- The bytes read at `p` are those of the memory from `p` on. -/
theorem readBytes_eq_some {m : Mem} {p n : Nat} (h : p + n ≤ m.length) :
    readBytes m p n = some ((m.drop p).take n) := by
  unfold readBytes
  rw [if_pos h]

/-- C8: for a destination buffer of capacity `C` at `dst`, a source of at
least `L` bytes at `src` that does not overlap it, and `L ≤ C`,
`__memcpy_chk(dst, src, L, C)` returns `dst` and produces the very memory
the unchecked `memcpy(dst, src, L)` produces: the first `L` bytes of the
destination are the first `L` bytes of the source, and every other byte,
those of the destination from offset `L` on among them, is unchanged. -/
theorem memcpy_chk_within_capacity (m : Mem) (dst src L C : Nat)
    (hdst : dst + C ≤ m.length) (hsrc : src + L ≤ m.length)
    (hdisj : dst + C ≤ src ∨ src + L ≤ dst) (hLC : L ≤ C) :
    ∃ m', __memcpy_chk m dst src L C = some (m', dst) ∧
      memcpy m dst src L = some (m', dst) ∧
      m'.length = m.length ∧
      (∀ i, i < L → m'[dst + i]? = m[src + i]? ∧ m'[dst + i]? ≠ none) ∧
      (∀ j, L ≤ j → j < C → m'[dst + j]? = m[dst + j]?) ∧
      (∀ j, j < dst ∨ dst + L ≤ j → m'[j]? = m[j]?) := by
  have hlen : ((m.drop src).take L).length = L := by
    rw [List.length_take, List.length_drop]; omega
  have hfit : dst + ((m.drop src).take L).length ≤ m.length := by
    rw [hlen]; omega
  have hcopy : memcpy m dst src L =
      some (m.take dst ++ (m.drop src).take L ++
        m.drop (dst + ((m.drop src).take L).length), dst) := by
    unfold memcpy
    have hd : disjointRegions dst L src L = true := by
      unfold disjointRegions
      rcases hdisj with h | h
      · simp only [Bool.or_eq_true, decide_eq_true_eq]; left; omega
      · simp only [Bool.or_eq_true, decide_eq_true_eq]; right; exact h
    rw [if_pos hd, readBytes_eq_some hsrc]
    simp only [writeBytes_eq_some hfit]
  refine ⟨_, hcopy, hcopy, splice_length hfit, ?_, ?_, ?_⟩
  · intro i hi
    have hsome : m[src + i]? ≠ none := by
      rw [ne_eq, List.getElem?_eq_none_iff]; omega
    have heq : (m.take dst ++ (m.drop src).take L ++
        m.drop (dst + ((m.drop src).take L).length))[dst + i]? = m[src + i]? := by
      rw [splice_getElem?_inside hfit (by rw [hlen]; exact hi),
        List.getElem?_take_of_lt hi, List.getElem?_drop]
    exact ⟨heq, by rw [heq]; exact hsome⟩
  · intro j hj _
    exact splice_getElem?_outside hfit (by rw [hlen]; right; omega)
  · intro j hj
    exact splice_getElem?_outside hfit (by rw [hlen]; exact hj)

/-- Witness of C8: three bytes copied into a destination of capacity four. -/
theorem memcpy_chk_within_capacity_witness :
    ∃ m', __memcpy_chk [1, 2, 3, 4, 5, 6, 7, 8] 0 4 3 4 = some (m', 0) ∧
      memcpy [1, 2, 3, 4, 5, 6, 7, 8] 0 4 3 = some (m', 0) ∧
      m'.length = [1, 2, 3, 4, 5, 6, 7, 8].length ∧
      (∀ i, i < 3 → m'[0 + i]? = [1, 2, 3, 4, 5, 6, 7, 8][4 + i]? ∧
        m'[0 + i]? ≠ none) ∧
      (∀ j, 3 ≤ j → j < 4 → m'[0 + j]? = [1, 2, 3, 4, 5, 6, 7, 8][0 + j]?) ∧
      (∀ j, j < 0 ∨ 0 + 3 ≤ j → m'[j]? = [1, 2, 3, 4, 5, 6, 7, 8][j]?) :=
  memcpy_chk_within_capacity [1, 2, 3, 4, 5, 6, 7, 8] 0 4 3 4
    (by decide) (by decide) (by decide) (by decide)

/-- The copy of the witness of C8, evaluated. -/
theorem memcpy_chk_example :
    __memcpy_chk [1, 2, 3, 4, 5, 6, 7, 8] 0 4 3 4 =
      some ([5, 6, 7, 4, 5, 6, 7, 8], 0) := by
  decide

/-- C9: the fortified entry points validate nothing. Whatever capacity is
declared, also one the requested length exceeds, each shim returns exactly
what the plain operation returns on the other arguments. In particular
`__strlen_chk(s, s_len)` on a string longer than `s_len` returns its true
length, and `__memset_chk(dst, c, n, dst_len)` with `n > dst_len` on a
buffer that really holds `n` bytes fills all `n` bytes and returns `dst`. -/
theorem fortified_no_validation (fs : Files) (m : Mem)
    (dst src s buf n size count : Nat) (c fd : Int) (fmt : List Nat)
    (ap : List Arg) (str : List Nat) (s_len dst_len : Nat)
    (hstr : cstrAt m s = some str) (hlong : s_len < str.length)
    (hbuf : dst + n ≤ m.length) (hover : dst_len < n) :
    (__strlen_chk m s s_len = some str.length ∧
      __strlen_chk m s s_len = strlen m s) ∧
    (∃ m', __memset_chk m dst c n dst_len = some (m', dst) ∧
      memset m dst c n = some (m', dst) ∧ m'.length = m.length ∧
      (∀ i, i < n → m'[dst + i]? = some (toUChar c)) ∧
      (∀ j, j < dst ∨ dst + n ≤ j → m'[j]? = m[j]?)) ∧
    (∀ (cap cap2 : Nat) (flags : Int),
      __memcpy_chk m dst src n cap = memcpy m dst src n ∧
      __memmove_chk m dst src n cap = memmove m dst src n ∧
      __memset_chk m dst c n cap = memset m dst c n ∧
      __strncpy_chk2 m dst src n cap cap2 = strncpy m dst src n ∧
      __strncat_chk m dst src n cap = strncat m dst src n ∧
      __strlen_chk m s cap = strlen m s ∧
      __strchr_chk m s c cap = strchr m s c ∧
      __strrchr_chk m s c cap = strrchr m s c ∧
      __read_chk fs m fd buf count cap = read fs m fd buf count ∧
      __vsnprintf_chk m dst size flags cap fmt ap = vsnprintf m dst size fmt ap ∧
      __vsprintf_chk m dst flags cap fmt ap = vsprintf m dst fmt ap) := by
  have _ := hlong
  have _ := hover
  have hrep : (List.replicate n (toUChar c)).length = n := List.length_replicate _ _
  have hfit : dst + (List.replicate n (toUChar c)).length ≤ m.length := by
    rw [hrep]; exact hbuf
  have hset : memset m dst c n =
      some (m.take dst ++ List.replicate n (toUChar c) ++
        m.drop (dst + (List.replicate n (toUChar c)).length), dst) := by
    unfold memset
    simp only [writeBytes_eq_some hfit]
  refine ⟨⟨?_, rfl⟩, ⟨_, hset, hset, splice_length hfit, ?_, ?_⟩, ?_⟩
  · show strlen m s = some str.length
    unfold strlen
    rw [hstr]
    rfl
  · intro i hi
    rw [splice_getElem?_inside hfit (by rw [hrep]; exact hi)]
    exact List.getElem?_replicate_of_lt hi
  · intro j hj
    exact splice_getElem?_outside hfit (by rw [hrep]; exact hj)
  · intro cap cap2 flags
    exact ⟨rfl, rfl, rfl, rfl, rfl, rfl, rfl, rfl, rfl, rfl, rfl⟩

/-- Witness of C9: a three-character string with declared size 1, and a
fill of two bytes with declared capacity 1. -/
theorem fortified_no_validation_witness :
    (__strlen_chk [72, 105, 33, 0, 9, 9] 0 1 = some [72, 105, 33].length ∧
      __strlen_chk [72, 105, 33, 0, 9, 9] 0 1 = strlen [72, 105, 33, 0, 9, 9] 0) ∧
    (∃ m', __memset_chk [72, 105, 33, 0, 9, 9] 4 65 2 1 = some (m', 4) ∧
      memset [72, 105, 33, 0, 9, 9] 4 65 2 = some (m', 4) ∧
      m'.length = [72, 105, 33, 0, 9, 9].length ∧
      (∀ i, i < 2 → m'[4 + i]? = some (toUChar 65)) ∧
      (∀ j, j < 4 ∨ 4 + 2 ≤ j → m'[j]? = [72, 105, 33, 0, 9, 9][j]?)) ∧
    (∀ (cap cap2 : Nat) (flags : Int),
      __memcpy_chk [72, 105, 33, 0, 9, 9] 4 0 2 cap =
        memcpy [72, 105, 33, 0, 9, 9] 4 0 2 ∧
      __memmove_chk [72, 105, 33, 0, 9, 9] 4 0 2 cap =
        memmove [72, 105, 33, 0, 9, 9] 4 0 2 ∧
      __memset_chk [72, 105, 33, 0, 9, 9] 4 65 2 cap =
        memset [72, 105, 33, 0, 9, 9] 4 65 2 ∧
      __strncpy_chk2 [72, 105, 33, 0, 9, 9] 4 0 2 cap cap2 =
        strncpy [72, 105, 33, 0, 9, 9] 4 0 2 ∧
      __strncat_chk [72, 105, 33, 0, 9, 9] 4 0 2 cap =
        strncat [72, 105, 33, 0, 9, 9] 4 0 2 ∧
      __strlen_chk [72, 105, 33, 0, 9, 9] 0 cap = strlen [72, 105, 33, 0, 9, 9] 0 ∧
      __strchr_chk [72, 105, 33, 0, 9, 9] 0 65 cap =
        strchr [72, 105, 33, 0, 9, 9] 0 65 ∧
      __strrchr_chk [72, 105, 33, 0, 9, 9] 0 65 cap =
        strrchr [72, 105, 33, 0, 9, 9] 0 65 ∧
      __read_chk [(0, [1, 2])] [72, 105, 33, 0, 9, 9] 0 4 2 cap =
        read [(0, [1, 2])] [72, 105, 33, 0, 9, 9] 0 4 2 ∧
      __vsnprintf_chk [72, 105, 33, 0, 9, 9] 4 2 flags cap [37, 100] [Arg.int 7] =
        vsnprintf [72, 105, 33, 0, 9, 9] 4 2 [37, 100] [Arg.int 7] ∧
      __vsprintf_chk [72, 105, 33, 0, 9, 9] 4 flags cap [37, 100] [Arg.int 7] =
        vsprintf [72, 105, 33, 0, 9, 9] 4 [37, 100] [Arg.int 7]) :=
  fortified_no_validation [(0, [1, 2])] [72, 105, 33, 0, 9, 9] 4 0 0 4 2 2 2 65 0
    [37, 100] [Arg.int 7] [72, 105, 33] 1 1 (by decide) (by decide) (by decide)
    (by decide)

/-- The two calls of the witness of C9, evaluated. -/
theorem fortified_no_validation_example :
    __strlen_chk [72, 105, 33, 0, 9, 9] 0 1 = some 3 ∧
      __memset_chk [72, 105, 33, 0, 9, 9] 4 65 2 1 =
        some ([72, 105, 33, 0, 65, 65], 4) := by
  decide

/-! ## The property stubs: theorems -/

/-- Storing a NUL at a valid address leaves the empty string there. -/
theorem cstrAt_set_zero {m : Mem} {p : Nat} (hp : p < m.length) :
    cstrAt (m.set p 0) p = some [] := by
  have hp' : p < (m.set p 0).length := by rw [List.length_set]; exact hp
  have hd : (m.set p 0).drop p = 0 :: (m.set p 0).drop (p + 1) := by
    rw [List.drop_eq_getElem_cons hp']
    simp
  unfold cstrAt
  simp [hd]

/-- C10: on every property name and every supplied value buffer
`__system_property_get` returns 0 and leaves the empty string in the
buffer, and `__system_property_find` returns the null descriptor; this is
so on a first call and again after any sequence of calls into the property
stubs made in between. -/
theorem property_get_find_absent (m m' : Mem) (calls : List PropCall)
    (name name' : Option Nat) (p : Nat)
    (hrun : propRun m calls = some m') (hp : p < m.length)
    (hp' : p < m'.length) :
    (∃ m1, __system_property_get m name (some p) = some (m1, 0) ∧
      cstrAt m1 p = some [] ∧ m1[p]? = some 0) ∧
    (∃ m2, __system_property_get m' name' (some p) = some (m2, 0) ∧
      cstrAt m2 p = some [] ∧ m2[p]? = some 0) ∧
    __system_property_find name = none ∧
    __system_property_find name' = none := by
  have _ := hrun
  have hget : ∀ (x : Mem) (nm : Option Nat), p < x.length →
      ∃ x1, __system_property_get x nm (some p) = some (x1, 0) ∧
        cstrAt x1 p = some [] ∧ x1[p]? = some 0 := by
    intro x nm hx
    refine ⟨x.set p 0, ?_, cstrAt_set_zero hx, ?_⟩
    · unfold __system_property_get
      simp [hx]
    · simp [hx]
  exact ⟨hget m name hp, hget m' name' hp', rfl, rfl⟩

/-- Witness of C10: a get, a find, a set and a callback read between two
calls. -/
theorem property_get_find_absent_witness :
    (∃ m1, __system_property_get [65, 66, 67] (some 0) (some 1) = some (m1, 0) ∧
      cstrAt m1 1 = some [] ∧ m1[1]? = some 0) ∧
    (∃ m2, __system_property_get [7, 0, 67] (some 2) (some 1) = some (m2, 0) ∧
      cstrAt m2 1 = some [] ∧ m2[1]? = some 0) ∧
    __system_property_find (some 0) = none ∧
    __system_property_find (some 2) = none :=
  property_get_find_absent [65, 66, 67] [7, 0, 67]
    [PropCall.get (some 0) (some 1), PropCall.find (some 0),
      PropCall.set (some 0) (some 2),
      PropCall.readCallback none (some (fun st _ _ _ _ => st.set 0 7)) none]
    (some 0) (some 2) 1 rfl (by decide) (by decide)

end BionicCompat

/-! ## The property stubs: set, null buffers and the callback -/

namespace BionicCompat

/-- C11, as stated, fails: `__system_property_set` returns the success
status 0, here on the key at address 0 and the value at address 1, so it
does not report rejection on every key and value. -/
theorem property_set_reports_success :
    __system_property_set (some 0) (some 1) = 0 ∧
      ¬ (∀ key value : Option Nat, __system_property_set key value ≠ 0) := by
  refine ⟨rfl, ?_⟩
  intro h
  exact h (some 0) (some 1) rfl

/-- C11, amended: for every key and value `__system_property_set` returns 0
and stores nothing: the memory after the call is the memory before it. -/
theorem property_set_returns_zero (m : Mem) (key value : Option Nat) :
    __system_property_set key value = 0 ∧
      propStep m (PropCall.set key value) = some m :=
  ⟨rfl, rfl⟩

/-- C12: for every key `k`, value `v` and supplied buffer, the call
`__system_property_set(k, v)` followed by `__system_property_get(k, buf)`
returns 0 and leaves the empty string in the buffer, with the very outcome
of a get that no set precedes. -/
theorem property_set_then_get (m : Mem) (k v : Option Nat) (p : Nat)
    (hp : p < m.length) :
    ∃ m1 m2, propRun m [PropCall.set k v] = some m1 ∧
      __system_property_get m1 k (some p) = some (m2, 0) ∧
      cstrAt m2 p = some [] ∧
      __system_property_get m k (some p) = some (m2, 0) := by
  have hget : __system_property_get m k (some p) = some (m.set p 0, 0) := by
    unfold __system_property_get
    simp [hp]
  exact ⟨m, m.set p 0, rfl, hget, cstrAt_set_zero hp, hget⟩

/-- Witness of C12: a set and then a get on a three-byte buffer. -/
theorem property_set_then_get_witness :
    ∃ m1 m2, propRun [65, 66, 67] [PropCall.set (some 0) (some 1)] = some m1 ∧
      __system_property_get m1 (some 0) (some 1) = some (m2, 0) ∧
      cstrAt m2 1 = some [] ∧
      __system_property_get [65, 66, 67] (some 0) (some 1) = some (m2, 0) :=
  property_set_then_get [65, 66, 67] (some 0) (some 1) 1 (by decide)

/-- C13: with a null value pointer `__system_property_get` returns 0 and
leaves the memory as it is; with a supplied buffer it returns 0 and the
memory differs from the old one in one byte at most, the byte at offset 0
of the buffer, which is the terminator. -/
theorem property_get_writes_one_byte (m : Mem) (name : Option Nat) (p : Nat)
    (hp : p < m.length) :
    __system_property_get m name none = some (m, 0) ∧
    ∃ m', __system_property_get m name (some p) = some (m', 0) ∧
      m'.length = m.length ∧ m'[p]? = some 0 ∧
      ∀ j, j ≠ p → m'[j]? = m[j]? := by
  refine ⟨rfl, m.set p 0, ?_, List.length_set _ _ _, ?_, ?_⟩
  · unfold __system_property_get
    simp [hp]
  · simp [hp]
  · intro j hj
    exact List.getElem?_set_ne (Ne.symm hj)

/-- Witness of C13 on a three-byte memory. -/
theorem property_get_writes_one_byte_witness :
    __system_property_get [65, 66, 67] (some 0) none = some ([65, 66, 67], 0) ∧
    ∃ m', __system_property_get [65, 66, 67] (some 0) (some 1) = some (m', 0) ∧
      m'.length = [65, 66, 67].length ∧ m'[1]? = some 0 ∧
      ∀ j, j ≠ 1 → m'[j]? = [65, 66, 67][j]? :=
  property_get_writes_one_byte [65, 66, 67] (some 0) 1 (by decide)

/-- C14: when a callback is supplied, `__system_property_read_callback` is
one invocation of it, with the caller's cookie, the empty name, the empty
value and serial 0, whatever the descriptor; a recording callback ends with
exactly one more entry, that invocation. With a null callback the caller's
state is unchanged. -/
theorem property_read_callback_once {σ : Type} (st : σ) (pi pi' : Option Nat)
    (cb : PropCallback σ) (cookie : Option Nat)
    (log : List (Option Nat × List Nat × List Nat × Nat)) :
    __system_property_read_callback st pi (some cb) cookie = cb st cookie [] [] 0 ∧
    __system_property_read_callback st pi (some cb) cookie =
      __system_property_read_callback st pi' (some cb) cookie ∧
    __system_property_read_callback log pi (some recordingCallback) cookie =
      log ++ [(cookie, [], [], 0)] ∧
    (__system_property_read_callback log pi (some recordingCallback) cookie).length =
      log.length + 1 ∧
    __system_property_read_callback st pi none cookie = st := by
  refine ⟨rfl, rfl, rfl, ?_, rfl⟩
  show (log ++ [(cookie, [], [], 0)]).length = log.length + 1
  simp

end BionicCompat

/-! ## The diagnostic stream: theorems -/

namespace BionicCompat

/-- A format string without `%` expands to itself. -/
theorem vformat_plain (l : List Nat) (ap : List Arg) (h : 37 ∉ l) :
    vformat l ap = some l := by
  induction l with
  | nil => simp [vformat]
  | cons b rest ih =>
    have hb : b ≠ 37 := fun e => h (by simp [e])
    have hr : 37 ∉ rest := fun e => h (by simp [e])
    unfold vformat
    split <;> simp_all

/-- A working stream receives every expansion, and the result is its
length. -/
theorem deliver_working (out text : List Nat) :
    deliver { out := out, broken := false } text =
      ({ out := out ++ text, broken := false }, (text.length : Int)) := by
  unfold deliver
  by_cases h : text = []
  · simp [h]
  · simp [h]

/-- The stream after `deliver` is the one `written` describes. -/
theorem deliver_fst (s : Stream) (text : List Nat) :
    (deliver s text).1 = written s text := by
  unfold deliver written
  cases s with
  | mk out broken =>
    by_cases h : text = []
    · cases broken <;> simp [h]
    · cases broken <;> simp [h]

/-- A format within `vformat` expands on every host as `vformat` says. -/
theorem hostFormat_of_vformat (ext : List Nat → List Arg → Option (List Nat))
    {fmt : List Nat} {ap : List Arg} {text : List Nat}
    (h : vformat fmt ap = some text) : hostFormat ext fmt ap = some text := by
  unfold hostFormat
  rw [h]

/-- Printing a text without `%`: a working stream receives it, a failing
stream keeps its state; either way the call returns. -/
theorem fprintf_plain (s : Stream) (l : List Nat) (h : 37 ∉ l) :
    ∃ r, fprintf s l [] = some (written s l, r) := by
  unfold fprintf vfprintf
  rw [vformat_plain l [] h]
  exact ⟨(deliver s l).2, by rw [← deliver_fst]⟩

/-- Expansion of the line format of `__android_log_write`. -/
theorem vformat_log_line (prio : Int) (tag text : List Nat) :
    vformat (bytes "[%d/%s] %s\n") [Arg.int prio, Arg.str tag, Arg.str text] =
      some (bytes "[" ++ decimal prio ++ bytes "/" ++ tag ++ bytes "] " ++
        text ++ bytes "\n") := by
  simp [bytes, vformat]

/-- Expansion of the prefix format of `__android_log_print`. -/
theorem vformat_log_head (prio : Int) (tag : List Nat) :
    vformat (bytes "[%d/%s] ") [Arg.int prio, Arg.str tag] =
      some (bytes "[" ++ decimal prio ++ bytes "/" ++ tag ++ bytes "] ") := by
  simp [bytes, vformat]

/-- Expansion of the format of `android_set_abort_message`. -/
theorem vformat_abort_message (msg : List Nat) :
    vformat (bytes "[bionic_compat] abort message: %s\n") [Arg.str msg] =
      some (bytes "[bionic_compat] abort message: " ++ msg ++ bytes "\n") := by
  simp [bytes, vformat]

end BionicCompat

/-! ## The logging bridge: theorems -/

namespace LibLog

open BionicCompat

/-- C15: for every priority, negative and out-of-range ones included, every
tag and every text, `__android_log_write` on a working stream appends
exactly `"[" ++ decimal(priority) ++ "/" ++ tag ++ "] " ++ text ++ "\n"`,
and returns the length of that line; no priority suppresses the message. -/
theorem log_write_line (out : List Nat) (prio : Int) (tag text : List Nat) :
    __android_log_write { out := out, broken := false } prio (some tag)
        (some text) =
      some ({ out := out ++ (bytes "[" ++ decimal prio ++ bytes "/" ++ tag ++
                bytes "] " ++ text ++ bytes "\n"),
              broken := false },
        ((bytes "[" ++ decimal prio ++ bytes "/" ++ tag ++ bytes "] " ++
            text ++ bytes "\n").length : Int)) := by
  unfold __android_log_write fprintf vfprintf
  simp only [vformat_log_line, deliver_working]

/-- The line of C15 for priority `-7`, tag `T` and text `hi`, evaluated. -/
theorem log_write_line_example :
    __android_log_write { out := [], broken := false } (-7) (some (bytes "T"))
        (some (bytes "hi")) =
      some ({ out := bytes "[-7/T] hi\n", broken := false }, 10) := by
  decide

/-- The three writes of `__android_log_print` and `__android_log_vprint` on
a working stream. -/
theorem log_vprint_working (ext : List Nat → List Arg → Option (List Nat))
    (out : List Nat) (prio : Int) (tag fmt : List Nat) (ap : List Arg) :
    __android_log_vprint ext { out := out, broken := false } prio (some tag)
        fmt ap =
      (hostFormat ext fmt ap).map (fun msg =>
        ({ out := out ++ (bytes "[" ++ decimal prio ++ bytes "/" ++ tag ++
                bytes "] ") ++ msg ++ bytes "\n",
           broken := false }, (msg.length : Int))) := by
  have hnl : vformat (bytes "\n") [] = some (bytes "\n") :=
    vformat_plain _ _ (by decide)
  unfold __android_log_vprint fprintf vfprintf vfprintfHost
  simp only [vformat_log_head, hnl, deliver_working]
  cases hostFormat ext fmt ap with
  | none => rfl
  | some msg => simp only [deliver_working, Option.map_some']

/-- C16: for every priority, tag, format string and argument list, and for
every host formatter `ext` beyond the directives of `vformat`,
`__android_log_print` and `__android_log_vprint` on a working stream append
exactly `"[" ++ decimal(priority) ++ "/" ++ tag ++ "] "`, then the message
`msg` the host expands the format to, then one newline, and return the
length of `msg`; where the host defines no expansion neither call has a
defined outcome. The two entry points have the same outcome on the same
format and arguments, on every stream and tag. -/
theorem log_print_line (ext : List Nat → List Arg → Option (List Nat))
    (out : List Nat) (prio : Int) (tag fmt : List Nat) (ap : List Arg) :
    __android_log_print ext { out := out, broken := false } prio (some tag)
        fmt ap =
      (hostFormat ext fmt ap).map (fun msg =>
        ({ out := out ++ (bytes "[" ++ decimal prio ++ bytes "/" ++ tag ++
                bytes "] ") ++ msg ++ bytes "\n",
           broken := false }, (msg.length : Int))) ∧
    __android_log_vprint ext { out := out, broken := false } prio (some tag)
        fmt ap =
      (hostFormat ext fmt ap).map (fun msg =>
        ({ out := out ++ (bytes "[" ++ decimal prio ++ bytes "/" ++ tag ++
                bytes "] ") ++ msg ++ bytes "\n",
           broken := false }, (msg.length : Int))) ∧
    ∀ (s : Stream) (t : Option (List Nat)),
      __android_log_print ext s prio t fmt ap =
        __android_log_vprint ext s prio t fmt ap :=
  ⟨log_vprint_working ext out prio tag fmt ap,
   log_vprint_working ext out prio tag fmt ap, fun _ _ => rfl⟩

/-- The line of C16 for the format `x=%d` and the argument 5, evaluated. -/
theorem log_print_line_example :
    __android_log_print plainHost { out := [], broken := false } 4
        (some (bytes "T")) (bytes "x=%d") [Arg.int 5] =
      some ({ out := bytes "[4/T] x=5\n", broken := false }, 3) ∧
    __android_log_vprint plainHost { out := [], broken := false } 4
        (some (bytes "T")) (bytes "x=%d") [Arg.int 5] =
      some ({ out := bytes "[4/T] x=5\n", broken := false }, 3) := by
  decide

/-- The line of C16 for a format outside `vformat`, evaluated: on a host
that pads `%5d` to five columns the argument 42 gives a message of five
bytes. -/
theorem log_print_line_width_example :
    vformat (bytes "%5d") [Arg.int 42] = none ∧
    __android_log_print widthHost { out := [], broken := false } 4
        (some (bytes "T")) (bytes "%5d") [Arg.int 42] =
      some ({ out := bytes "[4/T]    42\n", broken := false }, 5) ∧
    __android_log_vprint widthHost { out := [], broken := false } 4
        (some (bytes "T")) (bytes "%5d") [Arg.int 42] =
      some ({ out := bytes "[4/T]    42\n", broken := false }, 5) := by
  decide

/-- The amended C17 evaluated on a failing stream: the format `x=%d` gives
`-1`; the empty format, and `%s` with the empty string, give `0`; a null
tag and text give `-1` from `__android_log_write`. -/
theorem log_failure_passed_through_example :
    __android_log_write { out := [1], broken := true } 4 none none =
      some ({ out := [1], broken := true }, -1) ∧
    __android_log_print plainHost { out := [1], broken := true } 4 none
        (bytes "x=%d") [Arg.int 5] =
      some ({ out := [1], broken := true }, -1) ∧
    __android_log_vprint plainHost { out := [1], broken := true } 4 none
        (bytes "x=%d") [Arg.int 5] =
      some ({ out := [1], broken := true }, -1) ∧
    __android_log_print plainHost { out := [1], broken := true } 4 none
        (bytes "") [] =
      some ({ out := [1], broken := true }, 0) ∧
    __android_log_vprint plainHost { out := [1], broken := true } 4 none
        (bytes "%s") [Arg.str []] =
      some ({ out := [1], broken := true }, 0) ∧
    __android_log_print widthHost { out := [1], broken := true } 4 none
        (bytes "%5d") [Arg.int 42] =
      some ({ out := [1], broken := true }, -1) := by
  decide

end LibLog

namespace BionicCompat

/-- C18: for a non-null `msg`, `android_set_abort_message` on a working
stream appends exactly `"[bionic_compat] abort message: " ++ msg ++ "\n"`;
for a null `msg` it writes nothing; on a stream whose write fails it
delivers nothing. In every case it returns, and its only outcome is the
stream. -/
theorem abort_message_best_effort (out : List Nat) (msg : List Nat)
    (s : Stream) :
    android_set_abort_message { out := out, broken := false } (some msg) =
      some { out := out ++ (bytes "[bionic_compat] abort message: " ++ msg ++
               bytes "\n"),
             broken := false } ∧
    android_set_abort_message s none = some s ∧
    android_set_abort_message { out := out, broken := true } (some msg) =
      some { out := out, broken := true } ∧
    ∀ m : Option (List Nat), (android_set_abort_message s m).isSome = true := by
  have hmsg : ∀ (t : Stream) (x : List Nat),
      android_set_abort_message t (some x) =
        some (if t.broken then t else
          { t with out := t.out ++ (bytes "[bionic_compat] abort message: " ++
              x ++ bytes "\n") }) := by
    intro t x
    unfold android_set_abort_message fprintf vfprintf
    simp only [vformat_abort_message]
    rw [← written, ← deliver_fst]
  refine ⟨by rw [hmsg]; rfl, rfl, by rw [hmsg]; rfl, ?_⟩
  intro m
  cases m with
  | none => rfl
  | some x => rw [hmsg]; rfl

/-- The hook of C18 on the message `boom`, evaluated. -/
theorem abort_message_example :
    android_set_abort_message { out := [], broken := false }
        (some (bytes "boom")) =
      some { out := bytes "[bionic_compat] abort message: boom\n",
             broken := false } := by
  decide

end BionicCompat

/-! ## The OpenSL ES stub: theorems -/

namespace OpenSLStub

open BionicCompat

/-- With the statics intact, the handle `&g_stub_object` reaches the
dispatch table of the five stubs. -/
theorem tableOf_handle {st : SLState} (h : staticsIntact st) :
    tableOf st Ptr.g_stub_object = some g_stub_vtable_init := by
  unfold tableOf loadPtr
  simp only [h.2]
  unfold vtableAt
  simp only [h.1]

/-- The outcome of `slCreateEngine` on a caller's cell: success, the handle
`&g_stub_object` in the cell, all else but the stream as before. -/
theorem slCreateEngine_cell (st : SLState) (i : Nat)
    (hi : i < st.ptrCells.length) (numOptions numInterfaces : Nat)
    (pEngineOptions pInterfaceIds pInterfaceRequired : Ptr) :
    slCreateEngine st (Ptr.ptrCell i) numOptions pEngineOptions numInterfaces
        pInterfaceIds pInterfaceRequired =
      some ({ st with stderr := (written st.stderr
        (bytes "[OpenSL stub] slCreateEngine called - returning stub object\n")),
                      ptrCells := st.ptrCells.set i Ptr.g_stub_object },
        SL_RESULT_SUCCESS) := by
  obtain ⟨r, hr⟩ := fprintf_plain st.stderr
    (bytes "[OpenSL stub] slCreateEngine called - returning stub object\n")
    (by decide)
  unfold slCreateEngine
  simp only [hr]
  unfold storePtr
  simp [hi]

/-- The outcome of `slCreateEngine` without an output cell. -/
theorem slCreateEngine_null (st : SLState) (numOptions numInterfaces : Nat)
    (pEngineOptions pInterfaceIds pInterfaceRequired : Ptr) :
    slCreateEngine st Ptr.null numOptions pEngineOptions numInterfaces
        pInterfaceIds pInterfaceRequired =
      some ({ st with stderr := (written st.stderr
        (bytes "[OpenSL stub] slCreateEngine called - returning stub object\n")) },
        SL_RESULT_SUCCESS) := by
  obtain ⟨r, hr⟩ := fprintf_plain st.stderr
    (bytes "[OpenSL stub] slCreateEngine called - returning stub object\n")
    (by decide)
  unfold slCreateEngine
  simp only [hr]
  rfl

/-- C19: for every combination of option and interface arguments,
`slCreateEngine` returns the success code 0; given an output cell it stores
there a non-null handle, and through that handle one reaches the static
dispatch table, whose slots are realize, resume, get-state,
get-sub-interface and destroy, in that order. -/
theorem create_engine_succeeds (st : SLState) (hst : staticsIntact st)
    (i : Nat) (hi : i < st.ptrCells.length) (numOptions numInterfaces : Nat)
    (pEngineOptions pInterfaceIds pInterfaceRequired : Ptr) :
    (∃ st' h, slCreateEngine st (Ptr.ptrCell i) numOptions pEngineOptions
          numInterfaces pInterfaceIds pInterfaceRequired = some (st', 0) ∧
        loadPtr st' (Ptr.ptrCell i) = some h ∧ h ≠ Ptr.null ∧
        staticsIntact st' ∧
        tableOf st' h = some st'.g_stub_vtable ∧
        tableOf st' h =
          some { Realize := FnPtr.stub_Realize
                 Resume := FnPtr.stub_Resume
                 GetState := FnPtr.stub_GetState
                 GetInterface := FnPtr.stub_GetInterface
                 Destroy := FnPtr.stub_Destroy }) ∧
    (∃ st', slCreateEngine st Ptr.null numOptions pEngineOptions
          numInterfaces pInterfaceIds pInterfaceRequired = some (st', 0) ∧
        st'.ptrCells = st.ptrCells ∧ st'.wordCells = st.wordCells) := by
  have hst' : staticsIntact
      { st with stderr := (written st.stderr
        (bytes "[OpenSL stub] slCreateEngine called - returning stub object\n")),
                ptrCells := st.ptrCells.set i Ptr.g_stub_object } := hst
  refine ⟨⟨_, Ptr.g_stub_object, slCreateEngine_cell st i hi _ _ _ _ _, ?_,
    by decide, hst', ?_, tableOf_handle hst'⟩, ⟨_, slCreateEngine_null st _ _ _ _ _,
    rfl, rfl⟩⟩
  · unfold loadPtr
    simp [hi]
  · rw [tableOf_handle hst']
    exact congrArg some hst.1.symm

/-- Witness of C19: the library just loaded, one output cell. -/
theorem create_engine_succeeds_witness :
    (∃ st' h, slCreateEngine (loaded { out := [], broken := false } [Ptr.null] [7])
          (Ptr.ptrCell 0) 2 (Ptr.other 5) 1 (Ptr.other 6) (Ptr.other 7) =
          some (st', 0) ∧
        loadPtr st' (Ptr.ptrCell 0) = some h ∧ h ≠ Ptr.null ∧
        staticsIntact st' ∧
        tableOf st' h = some st'.g_stub_vtable ∧
        tableOf st' h =
          some { Realize := FnPtr.stub_Realize
                 Resume := FnPtr.stub_Resume
                 GetState := FnPtr.stub_GetState
                 GetInterface := FnPtr.stub_GetInterface
                 Destroy := FnPtr.stub_Destroy }) ∧
    (∃ st', slCreateEngine (loaded { out := [], broken := false } [Ptr.null] [7])
          Ptr.null 2 (Ptr.other 5) 1 (Ptr.other 6) (Ptr.other 7) =
          some (st', 0) ∧
        st'.ptrCells = (loaded { out := [], broken := false } [Ptr.null] [7]).ptrCells ∧
        st'.wordCells =
          (loaded { out := [], broken := false } [Ptr.null] [7]).wordCells) :=
  create_engine_succeeds (loaded { out := [], broken := false } [Ptr.null] [7])
    (by decide) 0 (by decide) 2 1 (Ptr.other 5) (Ptr.other 6) (Ptr.other 7)

/-- The call of the witness of C19, evaluated: the cell holds the handle. -/
theorem create_engine_example :
    (slCreateEngine (loaded { out := [], broken := false } [Ptr.null] [7])
        (Ptr.ptrCell 0) 2 (Ptr.other 5) 1 (Ptr.other 6) (Ptr.other 7)).map
      (fun r => (r.1.ptrCells, r.2)) = some ([Ptr.g_stub_object], 0) := by
  decide

/-- C20: realize, resume, get-state and get-sub-interface, reached through
the handle `slCreateEngine` stored, each return `0x0000000C` (feature
unsupported): for every self pointer, every `async` value, every interface
id and interface pointer, and for a state pointer that is null or points to
a cell of the caller. -/
theorem handle_ops_unsupported (st : SLState) (hst : staticsIntact st)
    (i : Nat) (hi : i < st.ptrCells.length) (numOptions numInterfaces : Nat)
    (pEngineOptions pInterfaceIds pInterfaceRequired : Ptr) :
    ∃ st1 h, slCreateEngine st (Ptr.ptrCell i) numOptions pEngineOptions
        numInterfaces pInterfaceIds pInterfaceRequired = some (st1, 0) ∧
      loadPtr st1 (Ptr.ptrCell i) = some h ∧
      SL_RESULT_FEATURE_UNSUPPORTED = 0x0000000C ∧
      (∀ (self : Ptr) (async : Nat), ∃ st2,
        callRealize st1 h self async = some (st2, 0x0000000C)) ∧
      (∀ (self : Ptr) (async : Nat), ∃ st2,
        callResume st1 h self async = some (st2, 0x0000000C)) ∧
      (∀ self : Ptr, ∃ st2,
        callGetState st1 h self Ptr.null = some (st2, 0x0000000C)) ∧
      (∀ (self : Ptr) (j : Nat), j < st1.wordCells.length → ∃ st2,
        callGetState st1 h self (Ptr.wordCell j) = some (st2, 0x0000000C)) ∧
      (∀ self iid pInterface : Ptr, ∃ st2,
        callGetInterface st1 h self iid pInterface = some (st2, 0x0000000C)) := by
  have hst' : staticsIntact
      { st with stderr := (written st.stderr
        (bytes "[OpenSL stub] slCreateEngine called - returning stub object\n")),
                ptrCells := st.ptrCells.set i Ptr.g_stub_object } := hst
  have htab := tableOf_handle hst'
  refine ⟨_, Ptr.g_stub_object, slCreateEngine_cell st i hi _ _ _ _ _, ?_, rfl,
    ?_, ?_, ?_, ?_, ?_⟩
  · unfold loadPtr
    simp [hi]
  · intro self async
    obtain ⟨r, hr⟩ := fprintf_plain ((written st.stderr
        (bytes "[OpenSL stub] slCreateEngine called - returning stub object\n")))
      (bytes "[OpenSL stub] Realize called - returning unsupported\n")
      (by decide)
    unfold callRealize
    rw [htab]
    simp only [g_stub_vtable_init, callBoolFn, stub_Realize, hr]
    exact ⟨_, rfl⟩
  · intro self async
    unfold callResume
    rw [htab]
    exact ⟨_, rfl⟩
  · intro self
    unfold callGetState
    rw [htab]
    exact ⟨_, rfl⟩
  · intro self j hj
    unfold callGetState
    rw [htab]
    simp only [g_stub_vtable_init, stub_GetState, storeWord]
    have hj' : j < st.wordCells.length := hj
    simp [hj', SL_RESULT_FEATURE_UNSUPPORTED]
  · intro self iid pInterface
    obtain ⟨r, hr⟩ := fprintf_plain ((written st.stderr
        (bytes "[OpenSL stub] slCreateEngine called - returning stub object\n")))
      (bytes "[OpenSL stub] GetInterface called - returning unsupported\n")
      (by decide)
    unfold callGetInterface
    rw [htab]
    simp only [g_stub_vtable_init, stub_GetInterface, hr]
    exact ⟨_, rfl⟩

/-- Witness of C20: the library just loaded, one output cell. -/
theorem handle_ops_unsupported_witness :
    ∃ st1 h, slCreateEngine (loaded { out := [], broken := false } [Ptr.null] [7])
        (Ptr.ptrCell 0) 2 (Ptr.other 5) 1 (Ptr.other 6) (Ptr.other 7) =
        some (st1, 0) ∧
      loadPtr st1 (Ptr.ptrCell 0) = some h ∧
      SL_RESULT_FEATURE_UNSUPPORTED = 0x0000000C ∧
      (∀ (self : Ptr) (async : Nat), ∃ st2,
        callRealize st1 h self async = some (st2, 0x0000000C)) ∧
      (∀ (self : Ptr) (async : Nat), ∃ st2,
        callResume st1 h self async = some (st2, 0x0000000C)) ∧
      (∀ self : Ptr, ∃ st2,
        callGetState st1 h self Ptr.null = some (st2, 0x0000000C)) ∧
      (∀ (self : Ptr) (j : Nat), j < st1.wordCells.length → ∃ st2,
        callGetState st1 h self (Ptr.wordCell j) = some (st2, 0x0000000C)) ∧
      (∀ self iid pInterface : Ptr, ∃ st2,
        callGetInterface st1 h self iid pInterface = some (st2, 0x0000000C)) :=
  handle_ops_unsupported (loaded { out := [], broken := false } [Ptr.null] [7])
    (by decide) 0 (by decide) 2 1 (Ptr.other 5) (Ptr.other 6) (Ptr.other 7)

/-- The factory and then realize on the stored handle, evaluated: the code
is 12 and both diagnostic lines are on the stream. -/
theorem create_then_realize_example :
    ((slCreateEngine (loaded { out := [], broken := false } [Ptr.null] [7])
        (Ptr.ptrCell 0) 0 Ptr.null 0 Ptr.null Ptr.null).bind
      (fun r => callRealize r.1 Ptr.g_stub_object (Ptr.ptrCell 0) 0)).map
      (fun r => (r.1.stderr.out, r.2)) =
    some (bytes "[OpenSL stub] slCreateEngine called - returning stub object\n" ++
      bytes "[OpenSL stub] Realize called - returning unsupported\n", 12) := by
  decide

end OpenSLStub

/-! ## The logging bridge: return values and missing arguments -/

namespace LibLog

open BionicCompat

/-- C28: for every priority, tag and text without format directives,
`__android_log_write` and `__android_log_print` append the same line to a
working stream, but `write` returns the length of the whole line (prefix,
text and newline) and `print` the length of the text alone; the two values
differ. -/
theorem log_write_print_returns
    (ext : List Nat → List Arg → Option (List Nat)) (out : List Nat)
    (prio : Int) (tag text : List Nat) (htext : 37 ∉ text) :
    ∃ line : List Nat,
      line = bytes "[" ++ decimal prio ++ bytes "/" ++ tag ++ bytes "] " ++
        text ++ bytes "\n" ∧
      __android_log_write { out := out, broken := false } prio (some tag)
          (some text) =
        some ({ out := out ++ line, broken := false }, (line.length : Int)) ∧
      __android_log_print ext { out := out, broken := false } prio (some tag)
          text [] =
        some ({ out := out ++ line, broken := false }, (text.length : Int)) ∧
      line.length =
        (bytes "[" ++ decimal prio ++ bytes "/" ++ tag ++ bytes "] ").length +
          text.length + 1 ∧
      (line.length : Int) ≠ (text.length : Int) := by
  have hnl : vformat (bytes "\n") [] = some (bytes "\n") :=
    vformat_plain _ _ (by decide)
  have hnl1 : (bytes "\n").length = 1 := by decide
  refine ⟨_, rfl, ?_, ?_, ?_, ?_⟩
  · unfold __android_log_write fprintf vfprintf
    simp only [vformat_log_line, deliver_working]
  · have hp : __android_log_print ext { out := out, broken := false } prio
        (some tag) text [] =
        __android_log_vprint ext { out := out, broken := false } prio
          (some tag) text [] := rfl
    rw [hp, log_vprint_working,
      hostFormat_of_vformat ext (vformat_plain text [] htext)]
    simp [List.append_assoc]
  · simp only [List.length_append, hnl1]
  · simp only [List.length_append, hnl1]
    have h1 : (bytes "[").length = 1 := by decide
    rw [h1]
    push_cast
    omega

/-- Witness of C28: priority 4, tag `T`, text `hi`. -/
theorem log_write_print_returns_witness :
    ∃ line : List Nat,
      line = bytes "[" ++ decimal 4 ++ bytes "/" ++ bytes "T" ++ bytes "] " ++
        bytes "hi" ++ bytes "\n" ∧
      __android_log_write { out := [], broken := false } 4 (some (bytes "T"))
          (some (bytes "hi")) =
        some ({ out := [] ++ line, broken := false }, (line.length : Int)) ∧
      __android_log_print plainHost { out := [], broken := false } 4
          (some (bytes "T")) (bytes "hi") [] =
        some ({ out := [] ++ line, broken := false },
          ((bytes "hi").length : Int)) ∧
      line.length =
        (bytes "[" ++ decimal 4 ++ bytes "/" ++ bytes "T" ++ bytes "] ").length +
          (bytes "hi").length + 1 ∧
      (line.length : Int) ≠ ((bytes "hi").length : Int) :=
  log_write_print_returns plainHost [] 4 (bytes "T") (bytes "hi") (by decide)

/-- The two calls of the witness of C28, evaluated: 9 against 2. -/
theorem log_write_print_example :
    __android_log_write { out := [], broken := false } 4 (some (bytes "T"))
        (some (bytes "hi")) =
      some ({ out := bytes "[4/T] hi\n", broken := false }, 9) ∧
    __android_log_print plainHost { out := [], broken := false } 4
        (some (bytes "T")) (bytes "hi") [] =
      some ({ out := bytes "[4/T] hi\n", broken := false }, 2) := by
  decide

/-- C29: a null tag is replaced by `"GME"` and a null text by the empty
text before the formatter sees them: `__android_log_write`,
`__android_log_print` and `__android_log_vprint` with a null tag have the
outcome they have with the tag `"GME"`, and `__android_log_write` with a
null text the outcome it has with the empty text. -/
theorem log_null_arguments (ext : List Nat → List Arg → Option (List Nat))
    (s : Stream) (prio : Int)
    (tag text : Option (List Nat)) (fmt : List Nat) (ap : List Arg) :
    __android_log_write s prio none text =
      __android_log_write s prio (some (bytes "GME")) text ∧
    __android_log_write s prio tag none =
      __android_log_write s prio tag (some []) ∧
    __android_log_print ext s prio none fmt ap =
      __android_log_print ext s prio (some (bytes "GME")) fmt ap ∧
    __android_log_vprint ext s prio none fmt ap =
      __android_log_vprint ext s prio (some (bytes "GME")) fmt ap :=
  ⟨rfl, rfl, rfl, rfl⟩

/-- The line of C29 for a null tag and a null text, evaluated. -/
theorem log_null_arguments_example :
    __android_log_write { out := [], broken := false } 6 none none =
      some ({ out := bytes "[6/GME] \n", broken := false }, 9) := by
  decide

end LibLog

/-! ## The OpenSL ES stub: outputs, side effects and runs -/

namespace OpenSLStub

open BionicCompat

/-- A dispatch table reached from any address is the static one. -/
theorem tableOf_eq_static {st : SLState} {h : Ptr} {vt : SLObjectItf_vtable}
    (hv : tableOf st h = some vt) : vt = st.g_stub_vtable := by
  unfold tableOf at hv
  split at hv
  · rename_i obj _
    unfold vtableAt at hv
    split at hv
    · cases hv; rfl
    · cases hv
  · cases hv

/-- The outcome of `stub_Realize`: its line on the stream, all else as
before. -/
theorem stub_Realize_eq (st : SLState) (self : Ptr) (async : Nat) :
    stub_Realize st self async =
      some ({ st with stderr := (written st.stderr
          (bytes "[OpenSL stub] Realize called - returning unsupported\n")) },
        SL_RESULT_FEATURE_UNSUPPORTED) := by
  obtain ⟨r, hr⟩ := fprintf_plain st.stderr
    (bytes "[OpenSL stub] Realize called - returning unsupported\n")
    (by decide)
  unfold stub_Realize
  simp only [hr]

/-- The outcome of `stub_GetInterface`: its line on the stream, all else
as before, the interface cell included. -/
theorem stub_GetInterface_eq (st : SLState) (self iid pInterface : Ptr) :
    stub_GetInterface st self iid pInterface =
      some ({ st with stderr := (written st.stderr
          (bytes "[OpenSL stub] GetInterface called - returning unsupported\n")) },
        SL_RESULT_FEATURE_UNSUPPORTED) := by
  obtain ⟨r, hr⟩ := fprintf_plain st.stderr
    (bytes "[OpenSL stub] GetInterface called - returning unsupported\n")
    (by decide)
  unfold stub_GetInterface
  simp only [hr]

/-- The outcome of `stub_GetState` on a cell of the caller. -/
theorem stub_GetState_cell (st : SLState) (self : Ptr) (j : Nat)
    (hj : j < st.wordCells.length) :
    stub_GetState st self (Ptr.wordCell j) =
      some ({ st with wordCells := st.wordCells.set j 0 },
        SL_RESULT_FEATURE_UNSUPPORTED) := by
  unfold stub_GetState storeWord
  simp [hj]

/-- A store through a `SLuint32*` leaves the statics as they are. -/
theorem storeWord_statics {st st' : SLState} {p : Ptr} {v : Nat}
    (h : storeWord st p v = some st') (hst : staticsIntact st) :
    staticsIntact st' := by
  unfold storeWord at h
  split at h
  · split at h
    · cases h; exact hst
    · cases h
  · cases h

/-- A store through a `void**` leaves the statics as they are. -/
theorem storePtr_statics {st st' : SLState} {p v : Ptr}
    (h : storePtr st p v = some st') (hst : staticsIntact st) :
    staticsIntact st' := by
  unfold storePtr at h
  split at h
  · split at h
    · cases h; exact hst
    · cases h
  · cases h

/-- No call changes the statics. -/
theorem slStep_statics {st st' : SLState} {c : SLCall}
    (h : slStep st c = some st') (hst : staticsIntact st) :
    staticsIntact st' := by
  cases c with
  | createEngine pEngine numOptions pEngineOptions numInterfaces pInterfaceIds
      pInterfaceRequired =>
    obtain ⟨r, hr⟩ := fprintf_plain st.stderr
      (bytes "[OpenSL stub] slCreateEngine called - returning stub object\n")
      (by decide)
    simp only [slStep, slCreateEngine, hr] at h
    split at h
    · split at h
      · rename_i st1 hs
        simp only [Option.map_some'] at h
        cases h
        exact storePtr_statics hs hst
      · simp at h
    · simp only [Option.map_some'] at h
      cases h
      exact hst
  | realize p self async =>
    simp only [slStep, callRealize] at h
    split at h
    · rename_i vt hv
      have hvt := tableOf_eq_static hv
      rw [hvt, hst.1] at h
      simp only [g_stub_vtable_init, callBoolFn, stub_Realize_eq,
        Option.map_some'] at h
      cases h
      exact hst
    · simp at h
  | resume p self async =>
    simp only [slStep, callResume] at h
    split at h
    · rename_i vt hv
      have hvt := tableOf_eq_static hv
      rw [hvt, hst.1] at h
      simp only [g_stub_vtable_init, callBoolFn, stub_Resume,
        Option.map_some'] at h
      cases h
      exact hst
    · simp at h
  | getState p self pState =>
    simp only [slStep, callGetState] at h
    split at h
    · rename_i vt hv
      have hvt := tableOf_eq_static hv
      rw [hvt, hst.1] at h
      simp only [g_stub_vtable_init, stub_GetState] at h
      split at h
      · split at h
        · rename_i st1 hs
          simp only [Option.map_some'] at h
          cases h
          exact storeWord_statics hs hst
        · simp at h
      · simp only [Option.map_some'] at h
        cases h
        exact hst
    · simp at h
  | getInterface p self iid pInterface =>
    simp only [slStep, callGetInterface] at h
    split at h
    · rename_i vt hv
      have hvt := tableOf_eq_static hv
      rw [hvt, hst.1] at h
      simp only [g_stub_vtable_init, stub_GetInterface_eq,
        Option.map_some'] at h
      cases h
      exact hst
    · simp at h
  | destroy p self =>
    simp only [slStep, callDestroy] at h
    split at h
    · rename_i vt hv
      have hvt := tableOf_eq_static hv
      rw [hvt, hst.1] at h
      simp only [g_stub_vtable_init, stub_Destroy] at h
      cases h
      exact hst
    · simp at h

/-- No run of calls changes the statics. -/
theorem slRun_statics {calls : List SLCall} {st st' : SLState}
    (h : slRun st calls = some st') (hst : staticsIntact st) :
    staticsIntact st' := by
  induction calls generalizing st with
  | nil =>
    simp only [slRun] at h
    cases h
    exact hst
  | cons c cs ih =>
    simp only [slRun] at h
    split at h
    · rename_i st1 hs
      exact ih h (slStep_statics hs hst)
    · simp at h

end OpenSLStub

namespace OpenSLStub

open BionicCompat

/-- C21, at the failing input: get-sub-interface through the handle, given
the caller's cell 0 (holding the non-null pointer `other 5`) as interface
cell, returns `0x0000000C` and leaves `other 5` in the cell, while
get-state on the caller's cell 0 (holding 7) leaves 0 there. So not every
entry with an output parameter zeroes it. -/
theorem get_interface_keeps_cell :
    (callGetInterface (loaded { out := [], broken := false } [Ptr.other 5] [7])
        Ptr.g_stub_object Ptr.g_stub_object (Ptr.other 9) (Ptr.ptrCell 0)).map
      (fun r => (r.1.ptrCells, r.2)) = some ([Ptr.other 5], 0x0000000C) ∧
    (callGetState (loaded { out := [], broken := false } [Ptr.other 5] [7])
        Ptr.g_stub_object Ptr.g_stub_object (Ptr.wordCell 0)).map
      (fun r => (r.1.wordCells, r.2)) = some ([0], 0x0000000C) ∧
    ¬ (∀ (st st' : SLState) (self iid : Ptr) (j : Nat) (r : Nat),
        stub_GetInterface st self iid (Ptr.ptrCell j) = some (st', r) →
          j < st.ptrCells.length → st'.ptrCells[j]? = some Ptr.null) := by
  refine ⟨by decide, by decide, ?_⟩
  intro h
  have h0 := h (loaded { out := [], broken := false } [Ptr.other 5] [7]) _
    Ptr.null Ptr.null 0 _ (stub_GetInterface_eq _ _ _ _) (by decide)
  exact absurd h0 (by decide)

/-- No cell of the caller is written by `stub_GetInterface`, whatever its
arguments, and `stub_GetState` leaves 0 in a supplied state cell. -/
theorem get_interface_writes_no_cell (st : SLState) (self iid pInterface : Ptr)
    (j : Nat) (hj : j < st.wordCells.length) :
    (∃ st', stub_GetInterface st self iid pInterface =
        some (st', SL_RESULT_FEATURE_UNSUPPORTED) ∧
      st'.ptrCells = st.ptrCells ∧ st'.wordCells = st.wordCells) ∧
    (∃ st', stub_GetState st self (Ptr.wordCell j) =
        some (st', SL_RESULT_FEATURE_UNSUPPORTED) ∧
      st'.wordCells[j]? = some 0) := by
  refine ⟨⟨_, stub_GetInterface_eq st self iid pInterface, rfl, rfl⟩,
    ⟨_, stub_GetState_cell st self j hj, ?_⟩⟩
  simp [hj]

/-- C22, as stated, fails: realize through the handle, on a working stream
with nothing on it yet, leaves its diagnostic line on the stream. -/
theorem realize_writes_diagnostic :
    (callRealize (loaded { out := [], broken := false } [] [])
        Ptr.g_stub_object Ptr.g_stub_object 0).map
      (fun r => r.1.stderr.out) =
      some (bytes "[OpenSL stub] Realize called - returning unsupported\n") ∧
    bytes "[OpenSL stub] Realize called - returning unsupported\n" ≠ [] ∧
    (callGetInterface (loaded { out := [], broken := false } [] [])
        Ptr.g_stub_object Ptr.g_stub_object Ptr.null Ptr.null).map
      (fun r => r.1.stderr.out) =
      some (bytes "[OpenSL stub] GetInterface called - returning unsupported\n") := by
  decide

/-- C22, amended: through the handle, resume changes nothing; get-state
changes nothing but a supplied state cell; realize changes nothing but the
diagnostic stream, and get-sub-interface nothing but the diagnostic stream
and, at most, a supplied interface cell; on the stream each of the two
tries to write its one fixed line. -/
theorem handle_ops_frame (st : SLState) (hst : staticsIntact st)
    (self iid pInterface : Ptr) (async j : Nat)
    (hj : j < st.wordCells.length) :
    callResume st Ptr.g_stub_object self async =
      some (st, SL_RESULT_FEATURE_UNSUPPORTED) ∧
    callGetState st Ptr.g_stub_object self Ptr.null =
      some (st, SL_RESULT_FEATURE_UNSUPPORTED) ∧
    callGetState st Ptr.g_stub_object self (Ptr.wordCell j) =
      some ({ st with wordCells := st.wordCells.set j 0 },
        SL_RESULT_FEATURE_UNSUPPORTED) ∧
    callRealize st Ptr.g_stub_object self async =
      some ({ st with stderr := (written st.stderr
          (bytes "[OpenSL stub] Realize called - returning unsupported\n")) },
        SL_RESULT_FEATURE_UNSUPPORTED) ∧
    (∃ st', callGetInterface st Ptr.g_stub_object self iid pInterface =
        some (st', SL_RESULT_FEATURE_UNSUPPORTED) ∧
      st'.stderr = written st.stderr
        (bytes "[OpenSL stub] GetInterface called - returning unsupported\n") ∧
      st'.g_stub_vtable = st.g_stub_vtable ∧
      st'.g_stub_object = st.g_stub_object ∧
      st'.wordCells = st.wordCells ∧
      ∀ i, pInterface ≠ Ptr.ptrCell i → st'.ptrCells[i]? = st.ptrCells[i]?) := by
  have htab := tableOf_handle hst
  refine ⟨?_, ?_, ?_, ?_, ?_⟩
  · unfold callResume
    rw [htab]
    rfl
  · unfold callGetState
    rw [htab]
    rfl
  · unfold callGetState
    rw [htab]
    exact stub_GetState_cell st self j hj
  · unfold callRealize
    rw [htab]
    exact stub_Realize_eq st self async
  · have hgi : callGetInterface st Ptr.g_stub_object self iid pInterface =
        some ({ st with stderr := (written st.stderr
            (bytes "[OpenSL stub] GetInterface called - returning unsupported\n")) },
          SL_RESULT_FEATURE_UNSUPPORTED) := by
      unfold callGetInterface
      rw [htab]
      exact stub_GetInterface_eq st self iid pInterface
    exact ⟨_, hgi, rfl, rfl, rfl, rfl, fun _ _ => rfl⟩

/-- Witness of the amended C22: the library just loaded, one state cell. -/
theorem handle_ops_frame_witness :
    callResume (loaded { out := [1], broken := false } [Ptr.null] [7])
        Ptr.g_stub_object Ptr.null 1 =
      some (loaded { out := [1], broken := false } [Ptr.null] [7],
        SL_RESULT_FEATURE_UNSUPPORTED) ∧
    callGetState (loaded { out := [1], broken := false } [Ptr.null] [7])
        Ptr.g_stub_object Ptr.null Ptr.null =
      some (loaded { out := [1], broken := false } [Ptr.null] [7],
        SL_RESULT_FEATURE_UNSUPPORTED) ∧
    callGetState (loaded { out := [1], broken := false } [Ptr.null] [7])
        Ptr.g_stub_object Ptr.null (Ptr.wordCell 0) =
      some ({ (loaded { out := [1], broken := false } [Ptr.null] [7]) with
          wordCells :=
            (loaded { out := [1], broken := false } [Ptr.null] [7]).wordCells.set 0 0 },
        SL_RESULT_FEATURE_UNSUPPORTED) ∧
    callRealize (loaded { out := [1], broken := false } [Ptr.null] [7])
        Ptr.g_stub_object Ptr.null 1 =
      some ({ (loaded { out := [1], broken := false } [Ptr.null] [7]) with
          stderr := (written
            (loaded { out := [1], broken := false } [Ptr.null] [7]).stderr
            (bytes "[OpenSL stub] Realize called - returning unsupported\n")) },
        SL_RESULT_FEATURE_UNSUPPORTED) ∧
    (∃ st', callGetInterface
          (loaded { out := [1], broken := false } [Ptr.null] [7])
          Ptr.g_stub_object Ptr.null (Ptr.other 3) (Ptr.ptrCell 0) =
        some (st', SL_RESULT_FEATURE_UNSUPPORTED) ∧
      st'.stderr = written
        (loaded { out := [1], broken := false } [Ptr.null] [7]).stderr
        (bytes "[OpenSL stub] GetInterface called - returning unsupported\n") ∧
      st'.g_stub_vtable =
        (loaded { out := [1], broken := false } [Ptr.null] [7]).g_stub_vtable ∧
      st'.g_stub_object =
        (loaded { out := [1], broken := false } [Ptr.null] [7]).g_stub_object ∧
      st'.wordCells =
        (loaded { out := [1], broken := false } [Ptr.null] [7]).wordCells ∧
      ∀ i, Ptr.ptrCell 0 ≠ Ptr.ptrCell i → st'.ptrCells[i]? =
        (loaded { out := [1], broken := false } [Ptr.null] [7]).ptrCells[i]?) :=
  handle_ops_frame (loaded { out := [1], broken := false } [Ptr.null] [7])
    (by decide) Ptr.null (Ptr.other 3) (Ptr.ptrCell 0) 1 0 (by decide)

/-- C23: a call of `slCreateEngine`, then any run of calls, then a second
call of `slCreateEngine` with other arguments: both calls store the same
handle in their output cells, and in both resulting states that handle
reaches the one dispatch table of the five stubs. -/
theorem engine_handle_shared (st st1 st' : SLState) (hst : staticsIntact st)
    (calls : List SLCall) (i j : Nat) (hi : i < st.ptrCells.length)
    (hj : j < st'.ptrCells.length) (n1 k1 n2 k2 : Nat)
    (o1 a1 b1 o2 a2 b2 : Ptr)
    (hfst : slCreateEngine st (Ptr.ptrCell i) n1 o1 k1 a1 b1 = some (st1, 0))
    (hrun : slRun st1 calls = some st') :
    ∃ st2 h, slCreateEngine st' (Ptr.ptrCell j) n2 o2 k2 a2 b2 = some (st2, 0) ∧
      loadPtr st1 (Ptr.ptrCell i) = some h ∧
      loadPtr st2 (Ptr.ptrCell j) = some h ∧
      tableOf st1 h = some g_stub_vtable_init ∧
      tableOf st2 h = some g_stub_vtable_init ∧
      st2.g_stub_vtable = st1.g_stub_vtable ∧
      st2.g_stub_object = st1.g_stub_object := by
  have h1 := slCreateEngine_cell st i hi n1 k1 o1 a1 b1
  rw [hfst] at h1
  have hst1eq : st1 = { st with
      stderr := (written st.stderr
        (bytes "[OpenSL stub] slCreateEngine called - returning stub object\n")),
      ptrCells := st.ptrCells.set i Ptr.g_stub_object } := by
    have := Option.some.inj h1
    exact congrArg Prod.fst this
  have hst1 : staticsIntact st1 := by rw [hst1eq]; exact hst
  have hst' : staticsIntact st' := slRun_statics hrun hst1
  have hst2 : staticsIntact
      { st' with
        stderr := (written st'.stderr
          (bytes "[OpenSL stub] slCreateEngine called - returning stub object\n")),
        ptrCells := st'.ptrCells.set j Ptr.g_stub_object } := hst'
  refine ⟨_, Ptr.g_stub_object, slCreateEngine_cell st' j hj n2 k2 o2 a2 b2,
    ?_, ?_, tableOf_handle hst1, tableOf_handle hst2, ?_, ?_⟩
  · rw [hst1eq]
    unfold loadPtr
    simp [hi]
  · unfold loadPtr
    simp [hj]
  · exact hst'.1.trans hst1.1.symm
  · exact hst'.2.trans hst1.2.symm

/-- Witness of C23: realize and destroy between the two factory calls. -/
theorem engine_handle_shared_witness :
    ∃ st2 h,
      slCreateEngine
          { stderr := { out := [], broken := true }
            g_stub_vtable := g_stub_vtable_init
            g_stub_object := Ptr.g_stub_vtable
            ptrCells := [Ptr.g_stub_object, Ptr.null]
            wordCells := [] }
          (Ptr.ptrCell 1) 3 (Ptr.other 1) 4 (Ptr.other 2) Ptr.null =
        some (st2, 0) ∧
      loadPtr
          { stderr := { out := [], broken := true }
            g_stub_vtable := g_stub_vtable_init
            g_stub_object := Ptr.g_stub_vtable
            ptrCells := [Ptr.g_stub_object, Ptr.null]
            wordCells := [] }
          (Ptr.ptrCell 0) = some h ∧
      loadPtr st2 (Ptr.ptrCell 1) = some h ∧
      tableOf
          { stderr := { out := [], broken := true }
            g_stub_vtable := g_stub_vtable_init
            g_stub_object := Ptr.g_stub_vtable
            ptrCells := [Ptr.g_stub_object, Ptr.null]
            wordCells := [] }
          h = some g_stub_vtable_init ∧
      tableOf st2 h = some g_stub_vtable_init ∧
      st2.g_stub_vtable = g_stub_vtable_init ∧
      st2.g_stub_object = Ptr.g_stub_vtable :=
  engine_handle_shared (loaded { out := [], broken := true } [Ptr.null, Ptr.null] [])
    _ _ (by decide)
    [SLCall.realize Ptr.g_stub_object Ptr.null 0,
      SLCall.destroy Ptr.g_stub_object Ptr.null]
    0 1 (by decide) (by decide) 0 0 3 4 Ptr.null Ptr.null Ptr.null
    (Ptr.other 1) (Ptr.other 2) Ptr.null (by decide) (by decide)

/-- C24: after any run of create-engine, realize, resume, get-state,
get-sub-interface and destroy calls the two statics, the dispatch table
among them, are as before; destroy through the handle changes nothing; a
following get-state reports state 0 with `0x0000000C`; and a following
realize returns `0x0000000C`, also right after a destroy on the handle. -/
theorem destroy_noop_never_realized (st st' : SLState)
    (hst : staticsIntact st) (calls : List SLCall)
    (hrun : slRun st calls = some st') (self : Ptr) (async j : Nat)
    (hj : j < st'.wordCells.length) :
    st'.g_stub_vtable = st.g_stub_vtable ∧
    st'.g_stub_object = st.g_stub_object ∧
    callDestroy st' Ptr.g_stub_object self = some st' ∧
    (∃ st2, callGetState st' Ptr.g_stub_object self (Ptr.wordCell j) =
        some (st2, 0x0000000C) ∧ st2.wordCells[j]? = some 0) ∧
    (∃ st2, callRealize st' Ptr.g_stub_object self async =
        some (st2, 0x0000000C)) ∧
    (∃ st2 st3, callDestroy st' Ptr.g_stub_object self = some st2 ∧
      callRealize st2 Ptr.g_stub_object self async = some (st3, 0x0000000C)) := by
  have hst' : staticsIntact st' := slRun_statics hrun hst
  have htab := tableOf_handle hst'
  have hd : callDestroy st' Ptr.g_stub_object self = some st' := by
    unfold callDestroy
    rw [htab]
    rfl
  have hr : callRealize st' Ptr.g_stub_object self async =
      some ({ st' with stderr := (written st'.stderr
          (bytes "[OpenSL stub] Realize called - returning unsupported\n")) },
        0x0000000C) := by
    unfold callRealize
    rw [htab]
    exact stub_Realize_eq st' self async
  have hg : callGetState st' Ptr.g_stub_object self (Ptr.wordCell j) =
      some ({ st' with wordCells := st'.wordCells.set j 0 }, 0x0000000C) := by
    unfold callGetState
    rw [htab]
    exact stub_GetState_cell st' self j hj
  exact ⟨hst'.1.trans hst.1.symm, hst'.2.trans hst.2.symm, hd,
    ⟨_, hg, by simp [hj]⟩, ⟨_, hr⟩, ⟨_, _, hd, hr⟩⟩

/-- Witness of C24: a run with two destroys around the other calls. -/
theorem destroy_noop_never_realized_witness :
    ({ stderr := { out := [], broken := true }
       g_stub_vtable := g_stub_vtable_init
       g_stub_object := Ptr.g_stub_vtable
       ptrCells := [Ptr.g_stub_object]
       wordCells := [0] } : SLState).g_stub_vtable =
      (loaded { out := [], broken := true } [Ptr.null] [7]).g_stub_vtable ∧
    ({ stderr := { out := [], broken := true }
       g_stub_vtable := g_stub_vtable_init
       g_stub_object := Ptr.g_stub_vtable
       ptrCells := [Ptr.g_stub_object]
       wordCells := [0] } : SLState).g_stub_object =
      (loaded { out := [], broken := true } [Ptr.null] [7]).g_stub_object ∧
    callDestroy
        { stderr := { out := [], broken := true }
          g_stub_vtable := g_stub_vtable_init
          g_stub_object := Ptr.g_stub_vtable
          ptrCells := [Ptr.g_stub_object]
          wordCells := [0] }
        Ptr.g_stub_object Ptr.null =
      some { stderr := { out := [], broken := true }
             g_stub_vtable := g_stub_vtable_init
             g_stub_object := Ptr.g_stub_vtable
             ptrCells := [Ptr.g_stub_object]
             wordCells := [0] } ∧
    (∃ st2, callGetState
        { stderr := { out := [], broken := true }
          g_stub_vtable := g_stub_vtable_init
          g_stub_object := Ptr.g_stub_vtable
          ptrCells := [Ptr.g_stub_object]
          wordCells := [0] }
        Ptr.g_stub_object Ptr.null (Ptr.wordCell 0) =
        some (st2, 0x0000000C) ∧ st2.wordCells[0]? = some 0) ∧
    (∃ st2, callRealize
        { stderr := { out := [], broken := true }
          g_stub_vtable := g_stub_vtable_init
          g_stub_object := Ptr.g_stub_vtable
          ptrCells := [Ptr.g_stub_object]
          wordCells := [0] }
        Ptr.g_stub_object Ptr.null 1 = some (st2, 0x0000000C)) ∧
    (∃ st2 st3, callDestroy
        { stderr := { out := [], broken := true }
          g_stub_vtable := g_stub_vtable_init
          g_stub_object := Ptr.g_stub_vtable
          ptrCells := [Ptr.g_stub_object]
          wordCells := [0] }
        Ptr.g_stub_object Ptr.null = some st2 ∧
      callRealize st2 Ptr.g_stub_object Ptr.null 1 = some (st3, 0x0000000C)) :=
  destroy_noop_never_realized
    (loaded { out := [], broken := true } [Ptr.null] [7]) _ (by decide)
    [SLCall.createEngine (Ptr.ptrCell 0) 0 Ptr.null 0 Ptr.null Ptr.null,
      SLCall.destroy Ptr.g_stub_object Ptr.null,
      SLCall.realize Ptr.g_stub_object Ptr.null 0,
      SLCall.resume Ptr.g_stub_object Ptr.null 0,
      SLCall.getState Ptr.g_stub_object Ptr.null (Ptr.wordCell 0),
      SLCall.getInterface Ptr.g_stub_object Ptr.null Ptr.null Ptr.null,
      SLCall.destroy Ptr.g_stub_object Ptr.null]
    (by decide) Ptr.null 1 0 (by decide)

end OpenSLStub

/-! ## The stream mirror: theorems -/

namespace BionicCompat

/-- The memory after a defined `memcpy`, byte by byte. -/
theorem memcpy_bytes {m : Mem} {d s n : Nat} (hd : d + n ≤ m.length)
    (hs : s + n ≤ m.length) (hdis : d + n ≤ s ∨ s + n ≤ d) :
    ∃ m', memcpy m d s n = some (m', d) ∧ m'.length = m.length ∧
      (∀ j, j < d ∨ d + n ≤ j → m'[j]? = m[j]?) ∧
      (∀ k, k < n → m'[d + k]? = m[s + k]?) := by
  have hlen : ((m.drop s).take n).length = n := by
    rw [List.length_take, List.length_drop]; omega
  have hfit : d + ((m.drop s).take n).length ≤ m.length := by
    rw [hlen]; omega
  have hcopy : memcpy m d s n =
      some (m.take d ++ (m.drop s).take n ++
        m.drop (d + ((m.drop s).take n).length), d) := by
    unfold memcpy
    have hdj : disjointRegions d n s n = true := by
      unfold disjointRegions
      simp only [Bool.or_eq_true, decide_eq_true_eq]
      exact hdis
    rw [if_pos hdj, readBytes_eq_some hs]
    simp only [writeBytes_eq_some hfit]
  refine ⟨_, hcopy, splice_length hfit, ?_, ?_⟩
  · intro j hj
    exact splice_getElem?_outside hfit (by rw [hlen]; exact hj)
  · intro k hk
    rw [splice_getElem?_inside hfit (by rw [hlen]; exact hk),
      List.getElem?_take_of_lt hk, List.getElem?_drop]

/-- One line of `__init_sF`: the entry mirrors a non-null host stream, is
left alone for a null one, and nothing outside the entry changes. -/
theorem copyStream_bytes (m : Mem) (sF n i : Nat) (q : Option Nat)
    (hd : sF + i * n + n ≤ m.length)
    (hq : ∀ p, q = some p →
      p + n ≤ m.length ∧ (sF + i * n + n ≤ p ∨ p + n ≤ sF + i * n)) :
    ∃ m', copyStream m sF n i q = some m' ∧ m'.length = m.length ∧
      (∀ j, j < sF + i * n ∨ sF + i * n + n ≤ j → m'[j]? = m[j]?) ∧
      (∀ p, q = some p → ∀ k, k < n → m'[sF + i * n + k]? = m[p + k]?) ∧
      (q = none → m' = m) := by
  cases q with
  | none =>
    refine ⟨m, rfl, rfl, fun _ _ => rfl, ?_, fun _ => rfl⟩
    intro p hp
    cases hp
  | some p =>
    obtain ⟨hp1, hp2⟩ := hq p rfl
    obtain ⟨m', hm, hl, hout, hin⟩ := memcpy_bytes hd hp1 hp2
    refine ⟨m', ?_, hl, hout, ?_, fun h => by cases h⟩
    · unfold copyStream
      simp only [hm]
    · intro p' hp' k hk
      cases hp'
      exact hin k hk

/-- A line of `__init_sF` on an entry that already mirrors its host stream
changes nothing. -/
theorem copyStream_again {m : Mem} {sF n i : Nat} {q : Option Nat}
    (hd : sF + i * n + n ≤ m.length)
    (hq : ∀ p, q = some p →
      p + n ≤ m.length ∧ (sF + i * n + n ≤ p ∨ p + n ≤ sF + i * n))
    (hsame : ∀ p, q = some p → ∀ k, k < n → m[sF + i * n + k]? = m[p + k]?) :
    copyStream m sF n i q = some m := by
  cases q with
  | none => rfl
  | some p =>
    obtain ⟨m', hm, _, hout, hin, _⟩ := copyStream_bytes m sF n i (some p) hd hq
    rw [hm]
    congr 1
    apply List.ext_getElem?
    intro j
    by_cases hj : j < sF + i * n ∨ sF + i * n + n ≤ j
    · exact hout j hj
    · have hk : j = sF + i * n + (j - (sF + i * n)) := by omega
      rw [hk, hin p rfl _ (by omega), hsame p rfl _ (by omega)]

end BionicCompat

namespace BionicCompat

/-- C27: let `__sF` (three entries of `n` bytes at `sF`) and the host's
non-null control blocks lie in memory, the blocks apart from `__sF`. Then
`__init_sF` runs to completion; for each `i` in 0..2 whose host stream is
non-null, entry `i` is byte for byte that stream's control block, which is
itself as before; an entry whose host stream is null is unchanged; no byte
outside `__sF` changes; and a second run changes nothing. -/
theorem init_sF_mirrors (m : Mem) (sF n : Nat)
    (stdin stdout stderr : Option Nat) (hsF : sF + 3 * n ≤ m.length)
    (hin : ∀ p, stdin = some p →
      p + n ≤ m.length ∧ (sF + 3 * n ≤ p ∨ p + n ≤ sF))
    (hout : ∀ p, stdout = some p →
      p + n ≤ m.length ∧ (sF + 3 * n ≤ p ∨ p + n ≤ sF))
    (herr : ∀ p, stderr = some p →
      p + n ≤ m.length ∧ (sF + 3 * n ≤ p ∨ p + n ≤ sF)) :
    ∃ m', __init_sF m sF n stdin stdout stderr = some m' ∧
      m'.length = m.length ∧
      (∀ (i : Nat) (q : Option Nat), [stdin, stdout, stderr][i]? = some q →
        (∀ p, q = some p → ∀ k, k < n →
          m'[sF + i * n + k]? = m'[p + k]? ∧ m'[p + k]? = m[p + k]?) ∧
        (q = none → ∀ k, k < n →
          m'[sF + i * n + k]? = m[sF + i * n + k]?)) ∧
      (∀ j, j < sF ∨ sF + 3 * n ≤ j → m'[j]? = m[j]?) ∧
      __init_sF m' sF n stdin stdout stderr = some m' := by
  obtain ⟨m1, h1, l1, o1, i1, e1⟩ := copyStream_bytes m sF n 0 stdin
    (by omega)
    (fun p hp => by have := hin p hp; omega)
  obtain ⟨m2, h2, l2, o2, i2, e2⟩ := copyStream_bytes m1 sF n 1 stdout
    (by omega)
    (fun p hp => by have := hout p hp; omega)
  obtain ⟨m3, h3, l3, o3, i3, e3⟩ := copyStream_bytes m2 sF n 2 stderr
    (by omega)
    (fun p hp => by have := herr p hp; omega)
  have hfar : ∀ j, j < sF ∨ sF + 3 * n ≤ j → m3[j]? = m[j]? := by
    intro j hj
    rw [o3 j (by omega), o2 j (by omega), o1 j (by omega)]
  have hblock : ∀ p, p + n ≤ m.length ∧ (sF + 3 * n ≤ p ∨ p + n ≤ sF) →
      ∀ k, k < n → m3[p + k]? = m[p + k]? := by
    intro p hp k hk
    exact hfar (p + k) (by omega)
  have hent0 : ∀ k, k < n → m3[sF + 0 * n + k]? = m1[sF + 0 * n + k]? := by
    intro k hk
    rw [o3 _ (by omega), o2 _ (by omega)]
  have hent1 : ∀ k, k < n → m3[sF + 1 * n + k]? = m2[sF + 1 * n + k]? := by
    intro k hk
    rw [o3 _ (by omega)]
  have hmir : ∀ (i : Nat) (q : Option Nat),
      [stdin, stdout, stderr][i]? = some q →
      (∀ p, q = some p → ∀ k, k < n →
        m3[sF + i * n + k]? = m3[p + k]? ∧ m3[p + k]? = m[p + k]?) ∧
      (q = none → ∀ k, k < n →
        m3[sF + i * n + k]? = m[sF + i * n + k]?) := by
    intro i q hq
    match i, hq with
    | 0, hq =>
      simp only [List.getElem?_cons_zero, Option.some.injEq] at hq
      subst hq
      refine ⟨fun p hp k hk => ?_, fun hnone k hk => ?_⟩
      · have hb := hblock p (hin p hp) k hk
        exact ⟨by rw [hent0 k hk, i1 p hp k hk, hb], hb⟩
      · rw [hent0 k hk, e1 hnone]
    | 1, hq =>
      simp only [List.getElem?_cons_succ, List.getElem?_cons_zero,
        Option.some.injEq] at hq
      subst hq
      refine ⟨fun p hp k hk => ?_, fun hnone k hk => ?_⟩
      · have hb := hblock p (hout p hp) k hk
        have hp' := hout p hp
        exact ⟨by rw [hent1 k hk, i2 p hp k hk, hb, o1 _ (by omega)], hb⟩
      · rw [hent1 k hk, e2 hnone, o1 _ (by omega)]
    | 2, hq =>
      simp only [List.getElem?_cons_succ, List.getElem?_cons_zero,
        Option.some.injEq] at hq
      subst hq
      refine ⟨fun p hp k hk => ?_, fun hnone k hk => ?_⟩
      · have hb := hblock p (herr p hp) k hk
        have hp' := herr p hp
        exact ⟨by rw [i3 p hp k hk, hb, o2 _ (by omega), o1 _ (by omega)], hb⟩
      · rw [e3 hnone, o2 _ (by omega), o1 _ (by omega)]
    | i + 3, hq => simp at hq
  have hl : m3.length = m.length := by rw [l3, l2, l1]
  have hinit : __init_sF m sF n stdin stdout stderr = some m3 := by
    unfold __init_sF
    simp only [h1, h2, h3]
  have hagain : __init_sF m3 sF n stdin stdout stderr = some m3 := by
    have a1 : copyStream m3 sF n 0 stdin = some m3 :=
      copyStream_again (by omega) (fun p hp => by have := hin p hp; omega)
        (fun p hp k hk => ((hmir 0 stdin rfl).1 p hp k hk).1)
    have a2 : copyStream m3 sF n 1 stdout = some m3 :=
      copyStream_again (by omega) (fun p hp => by have := hout p hp; omega)
        (fun p hp k hk => ((hmir 1 stdout rfl).1 p hp k hk).1)
    have a3 : copyStream m3 sF n 2 stderr = some m3 :=
      copyStream_again (by omega) (fun p hp => by have := herr p hp; omega)
        (fun p hp k hk => ((hmir 2 stderr rfl).1 p hp k hk).1)
    unfold __init_sF
    simp only [a1, a2, a3]
  exact ⟨m3, hinit, hl, hmir, hfar, hagain⟩

/-- Witness of C27: entries of two bytes at address 0, `stdin` at 6, a null
`stdout`, `stderr` at 10. -/
theorem init_sF_mirrors_witness :
    ∃ m', __init_sF [1, 2, 3, 4, 5, 6, 7, 8, 9, 10, 11, 12] 0 2 (some 6) none
        (some 10) = some m' ∧
      m'.length = [1, 2, 3, 4, 5, 6, 7, 8, 9, 10, 11, 12].length ∧
      (∀ (i : Nat) (q : Option Nat),
        [some 6, none, some 10][i]? = some q →
        (∀ p, q = some p → ∀ k, k < 2 →
          m'[0 + i * 2 + k]? = m'[p + k]? ∧
            m'[p + k]? = [1, 2, 3, 4, 5, 6, 7, 8, 9, 10, 11, 12][p + k]?) ∧
        (q = none → ∀ k, k < 2 →
          m'[0 + i * 2 + k]? =
            [1, 2, 3, 4, 5, 6, 7, 8, 9, 10, 11, 12][0 + i * 2 + k]?)) ∧
      (∀ j, j < 0 ∨ 0 + 3 * 2 ≤ j →
        m'[j]? = [1, 2, 3, 4, 5, 6, 7, 8, 9, 10, 11, 12][j]?) ∧
      __init_sF m' 0 2 (some 6) none (some 10) = some m' :=
  init_sF_mirrors [1, 2, 3, 4, 5, 6, 7, 8, 9, 10, 11, 12] 0 2 (some 6) none
    (some 10) (by decide)
    (fun p hp => by cases hp; decide)
    (fun p hp => by cases hp)
    (fun p hp => by cases hp; decide)

/-- The constructor of the witness of C27, evaluated, once and twice. -/
theorem init_sF_example :
    __init_sF [1, 2, 3, 4, 5, 6, 7, 8, 9, 10, 11, 12] 0 2 (some 6) none
        (some 10) = some [7, 8, 3, 4, 11, 12, 7, 8, 9, 10, 11, 12] ∧
    __init_sF [7, 8, 3, 4, 11, 12, 7, 8, 9, 10, 11, 12] 0 2 (some 6) none
        (some 10) = some [7, 8, 3, 4, 11, 12, 7, 8, 9, 10, 11, 12] := by
  decide

end BionicCompat

/-! ## Descriptor sets: theorems -/

namespace BionicCompat

/-- The mask test of `FD_ISSET` reads one bit of the word. -/
theorem and_mask_ne_zero (w d : Nat) :
    w &&& __FD_MASK d ≠ 0 ↔ w.testBit (d % __NFDBITS) = true := by
  unfold __FD_MASK
  rw [Nat.one_shiftLeft, Nat.and_two_pow]
  cases w.testBit (d % __NFDBITS) with
  | false => simp
  | true =>
    simp only [Bool.toNat_true, Nat.one_mul, ne_eq, iff_true]
    exact Nat.pos_iff_ne_zero.mp (Nat.two_pow_pos _)

/-- `FD_SET` on a descriptor in range, spelled out. -/
theorem FD_SET_eq (s : fd_set) (hs : s.length = 16) (fd : Nat)
    (hfd : fd < 1024) :
    ∃ w, s[__FD_ELT fd]? = some w ∧
      FD_SET (fd : Int) s =
        some (s.set (__FD_ELT fd) (w ||| __FD_MASK fd)) := by
  have he : __FD_ELT fd < s.length := by
    unfold __FD_ELT __NFDBITS
    omega
  have hw : s[__FD_ELT fd]? = some s[__FD_ELT fd] := List.getElem?_eq_getElem he
  refine ⟨_, hw, ?_⟩
  unfold FD_SET
  have hr : (0 : Int) ≤ (fd : Int) ∧ (fd : Int) < (FD_SETSIZE : Int) := by
    unfold FD_SETSIZE
    omega
  rw [if_pos hr]
  simp only [Int.toNat_ofNat, hw]

/-- `FD_ISSET` on a descriptor in range, spelled out. -/
theorem FD_ISSET_eq (s : fd_set) (fd : Nat) (hfd : fd < 1024) (w : Nat)
    (hw : s[__FD_ELT fd]? = some w) :
    FD_ISSET (fd : Int) s =
      some (if w &&& __FD_MASK fd ≠ 0 then 1 else 0) := by
  unfold FD_ISSET
  have hr : (0 : Int) ≤ (fd : Int) ∧ (fd : Int) < (FD_SETSIZE : Int) := by
    unfold FD_SETSIZE
    omega
  rw [if_pos hr]
  simp only [Int.toNat_ofNat, hw]

/-- C30: for every descriptor set and descriptors `fd`, `g` in 0..1023:
after `__FD_SET_chk(fd, s)` the test `__FD_ISSET_chk(fd, s)` is non-zero,
the test of every `g ≠ fd` is zero iff it was zero before, and a second
`__FD_SET_chk(fd, s)` leaves the set as it is. -/
theorem fd_set_then_isset (s : fd_set) (hs : s.length = 16) (fd g : Nat)
    (hfd : fd < 1024) (hg : g < 1024) :
    ∃ s1, __FD_SET_chk (fd : Int) s = some s1 ∧ s1.length = 16 ∧
      (∃ r, __FD_ISSET_chk (fd : Int) s1 = some r ∧ r ≠ 0) ∧
      (g ≠ fd → ∃ r0 r1, __FD_ISSET_chk (g : Int) s = some r0 ∧
        __FD_ISSET_chk (g : Int) s1 = some r1 ∧ (r1 = 0 ↔ r0 = 0)) ∧
      __FD_SET_chk (fd : Int) s1 = some s1 := by
  obtain ⟨w, hw, hset⟩ := FD_SET_eq s hs fd hfd
  have he : __FD_ELT fd < s.length := by
    unfold __FD_ELT __NFDBITS
    omega
  have hl1 : (s.set (__FD_ELT fd) (w ||| __FD_MASK fd)).length = 16 := by
    rw [List.length_set]; exact hs
  have hw1 : (s.set (__FD_ELT fd) (w ||| __FD_MASK fd))[__FD_ELT fd]? =
      some (w ||| __FD_MASK fd) := by
    simp [he]
  have hbit : (w ||| __FD_MASK fd).testBit (fd % __NFDBITS) = true := by
    unfold __FD_MASK
    rw [Nat.one_shiftLeft, Nat.testBit_or, Nat.testBit_two_pow_self]
    simp
  refine ⟨_, hset, hl1, ?_, ?_, ?_⟩
  · refine ⟨_, FD_ISSET_eq _ fd hfd _ hw1, ?_⟩
    rw [if_pos ((and_mask_ne_zero _ _).mpr hbit)]
    decide
  · intro hne
    obtain ⟨v, hv, _⟩ := FD_SET_eq s hs g hg
    by_cases hword : __FD_ELT g = __FD_ELT fd
    · have hv1 : (s.set (__FD_ELT fd) (w ||| __FD_MASK fd))[__FD_ELT g]? =
          some (w ||| __FD_MASK fd) := by rw [hword]; exact hw1
      have hvw : v = w := by
        rw [hword, hw] at hv
        exact (Option.some.inj hv).symm
      subst hvw
      have hmod : fd % __NFDBITS ≠ g % __NFDBITS := by
        unfold __FD_ELT __NFDBITS at hword
        unfold __NFDBITS
        omega
      have hsame : (v ||| __FD_MASK fd).testBit (g % __NFDBITS) =
          v.testBit (g % __NFDBITS) := by
        unfold __FD_MASK
        rw [Nat.one_shiftLeft, Nat.testBit_or, Nat.testBit_two_pow_of_ne hmod]
        simp
      refine ⟨_, _, FD_ISSET_eq s g hg v hv, FD_ISSET_eq _ g hg _ hv1, ?_⟩
      have h0 := and_mask_ne_zero v g
      have h1 := and_mask_ne_zero (v ||| __FD_MASK fd) g
      rw [hsame] at h1
      by_cases hb : v.testBit (g % __NFDBITS) = true
      · rw [if_pos (h1.mpr hb), if_pos (h0.mpr hb)]
      · rw [if_neg (fun h => hb (h1.mp h)), if_neg (fun h => hb (h0.mp h))]
    · have hv1 : (s.set (__FD_ELT fd) (w ||| __FD_MASK fd))[__FD_ELT g]? =
          some v := by
        rw [List.getElem?_set_ne (Ne.symm hword)]
        exact hv
      exact ⟨_, _, FD_ISSET_eq s g hg v hv, FD_ISSET_eq _ g hg v hv1, Iff.rfl⟩
  · obtain ⟨w', hw', hset'⟩ := FD_SET_eq _ hl1 fd hfd
    rw [hw1] at hw'
    cases hw'
    show FD_SET (fd : Int) _ = _
    rw [hset', List.set_set, Nat.or_assoc, Nat.or_self]

/-- Witness of C30: descriptor 65 set in the empty set, tested against 64. -/
theorem fd_set_then_isset_witness :
    ∃ s1, __FD_SET_chk ((65 : Nat) : Int) (List.replicate 16 0) = some s1 ∧
      s1.length = 16 ∧
      (∃ r, __FD_ISSET_chk ((65 : Nat) : Int) s1 = some r ∧ r ≠ 0) ∧
      (64 ≠ 65 → ∃ r0 r1,
        __FD_ISSET_chk ((64 : Nat) : Int) (List.replicate 16 0) = some r0 ∧
        __FD_ISSET_chk ((64 : Nat) : Int) s1 = some r1 ∧ (r1 = 0 ↔ r0 = 0)) ∧
      __FD_SET_chk ((65 : Nat) : Int) s1 = some s1 :=
  fd_set_then_isset (List.replicate 16 0) (by decide) 65 64 (by decide)
    (by decide)

/-- The calls of the witness of C30, evaluated. -/
theorem fd_set_example :
    __FD_SET_chk 65 (List.replicate 16 0) =
      some [0, 2, 0, 0, 0, 0, 0, 0, 0, 0, 0, 0, 0, 0, 0, 0] ∧
    __FD_ISSET_chk 65 [0, 2, 0, 0, 0, 0, 0, 0, 0, 0, 0, 0, 0, 0, 0, 0] = some 1 ∧
    __FD_ISSET_chk 64 [0, 2, 0, 0, 0, 0, 0, 0, 0, 0, 0, 0, 0, 0, 0, 0] = some 0 ∧
    __FD_SET_chk 1024 (List.replicate 16 0) = none := by
  decide

end BionicCompat
